import Mathlib

/-!
Verification of the RSAI (repeat-sales aggregation index) pipeline.

This file gives a shallow embedding, in Lean 4, of the algorithmic core of
the repeat-sales house-price-index implementation found under
src/impl-pandas/rsai/src, and proves the behavioural properties claimed of
it.  Floating point numbers of the source are embedded as rationals; the
transcendental exp of the index chainer, the OLS fitter of the regression
engine, and the great-circle distance of the spatial index enter the model
as explicit function parameters, since the properties proved here are
independent of their numeric values.  Raised Python exceptions are embedded
as the error branch of Except.
-/

namespace RSAI

/-- One repeat-sale pair row of the repeat-sales table, keeping the columns
the core reads: census tract, CBSA (metro) id, the two sale years (the code
only ever reads the year of each sale date) and the log price relative. -/
structure Sale where
  tract : String
  cbsa : String
  firstYear : Int
  secondYear : Int
  logPriceRelative : ℚ
deriving Repr, DecidableEq

/-! ## BMN regression: design-matrix construction
Embedding of BMNRegression.prepare_regression_data
(src/index/bmn_regression.py).  The source builds, per dataframe row, a row
of a sparse matrix with n_years - 1 columns: the dummy assignments are
skipped when first_year_idx < 0 or second_year_idx >= n_years, leaving that
matrix row at its initial all-zero state; the -1 for the first-sale year is
written before the +1 for the second-sale year, so the +1 wins when the two
indices coincide.  The response vector is taken from the whole dataframe. -/

def bmnRow (startYear endYear : Int) (p : Sale) : List Int :=
  let nYears : Int := endYear - startYear + 1
  let zeroRow : List Int := List.replicate (nYears - 1).toNat 0
  let firstIdx := p.firstYear - startYear
  let secondIdx := p.secondYear - startYear
  if firstIdx < 0 ∨ nYears ≤ secondIdx then zeroRow
  else
    let r1 := if 0 < firstIdx then zeroRow.set (firstIdx - 1).toNat (-1) else zeroRow
    if 0 < secondIdx then r1.set (secondIdx - 1).toNat 1 else r1

/-- The years list built by prepare_regression_data:
list(range(start_year, end_year + 1)). -/
def yearsRange (startYear endYear : Int) : List Int :=
  (List.range (endYear - startYear + 1).toNat).map (fun i => startYear + i)

/-- prepare_regression_data with explicit start and end years: the design
matrix (one row per dataframe row), the response vector (the log price
relative of every dataframe row) and the years list. -/
def prepareRegressionData (startYear endYear : Int) (pairs : List Sale) :
    List (List Int) × List ℚ × List Int :=
  (pairs.map (bmnRow startYear endYear),
   pairs.map (fun p => p.logPriceRelative),
   yearsRange startYear endYear)


/-! ## Weighting schemes (src/index/weights.py)
One row of the supertract-definition table and one row of the optional
economic/demographic weighting table. -/

structure SupertractRow where
  supertractId : String
  year : Int
  cbsa : String
  componentTracts : List String
  halfPairsCount : Nat
deriving Repr, DecidableEq

structure WeightRow where
  tract : String
  year : Int
  totalHousingUnits : ℚ
  totalHousingValue : ℚ
  totalUpb : ℚ
  collegePopulation : ℚ
  nonWhitePopulation : ℚ
deriving Repr, DecidableEq

/-- WeightingScheme.normalize_weights: divide by the sum, or fall back to
equal weights 1/len when the sum is zero; on an empty vector that fallback
divides one by zero, which Python raises as ZeroDivisionError. -/
def normalizeWeights (w : List (String × ℚ)) : Except String (List (String × ℚ)) :=
  let s := (w.map (fun p => p.2)).sum
  if s = 0 then
    if w.length = 0 then Except.error "ZeroDivisionError: float division by zero"
    else Except.ok (w.map (fun p => (p.1, 1 / (w.length : ℚ))))
  else Except.ok (w.map (fun p => (p.1, p.2 / s)))

/-- The rows of the supertract table for the target year
(supertract_data[supertract_data.year == year]). -/
def yearRows (st : List SupertractRow) (year : Int) : List SupertractRow :=
  st.filter (fun r => decide (r.year = year))

/-- Aggregate one numeric column of the weighting table over the rows whose
tract belongs to the given component-tract list and whose year matches. -/
def sumOverTracts (wd : List WeightRow) (yr : Int) (col : WeightRow → ℚ)
    (tracts : List String) : ℚ :=
  ((wd.filter (fun w => decide (w.tract ∈ tracts ∧ w.year = yr))).map col).sum

/-- SampleWeighting: raw weight is the half-pairs count of the year row. -/
def sampleRawWeights (st : List SupertractRow) (year : Int) : List (String × ℚ) :=
  (yearRows st year).map (fun r => (r.supertractId, (r.halfPairsCount : ℚ)))

/-- ValueWeighting: raw weight is prior-year aggregate housing value of the
component tracts (Laspeyres lag). -/
def valueRawWeights (st : List SupertractRow) (year : Int) (wd : List WeightRow) :
    List (String × ℚ) :=
  (yearRows st year).map (fun r =>
    (r.supertractId, sumOverTracts wd (year - 1) (fun w => w.totalHousingValue)
      r.componentTracts))

/-- UnitWeighting: raw weight is current-year aggregate housing units. -/
def unitRawWeights (st : List SupertractRow) (year : Int) (wd : List WeightRow) :
    List (String × ℚ) :=
  (yearRows st year).map (fun r =>
    (r.supertractId, sumOverTracts wd year (fun w => w.totalHousingUnits)
      r.componentTracts))

/-- UPBWeighting: raw weight is current-year aggregate unpaid principal
balance. -/
def upbRawWeights (st : List SupertractRow) (year : Int) (wd : List WeightRow) :
    List (String × ℚ) :=
  (yearRows st year).map (fun r =>
    (r.supertractId, sumOverTracts wd year (fun w => w.totalUpb) r.componentTracts))

/-- DemographicWeighting (College / Non-white): raw weight is the aggregate
demographic column read from the fixed reference year 2010. -/
def demographicRawWeights (col : WeightRow → ℚ) (st : List SupertractRow)
    (year : Int) (wd : List WeightRow) : List (String × ℚ) :=
  (yearRows st year).map (fun r =>
    (r.supertractId, sumOverTracts wd 2010 col r.componentTracts))

/-- The pre-normalization weight vector of each scheme, for stating the
zero-sum fallback. -/
def rawWeights (scheme : String) (st : List SupertractRow) (year : Int)
    (wd : List WeightRow) : List (String × ℚ) :=
  if scheme = "sample" then sampleRawWeights st year
  else if scheme = "value" then valueRawWeights st year wd
  else if scheme = "unit" then unitRawWeights st year wd
  else if scheme = "upb" then upbRawWeights st year wd
  else if scheme = "college" then demographicRawWeights (fun w => w.collegePopulation) st year wd
  else if scheme = "non_white" then demographicRawWeights (fun w => w.nonWhitePopulation) st year wd
  else []

/-- WeightCalculator.calculate_weights: dispatch by scheme name; every
scheme except sample treats a missing weighting table as a fatal
configuration error; an unknown name is a fatal error. -/
def calculateWeights (scheme : String) (st : List SupertractRow) (year : Int)
    (weightingData : Option (List WeightRow)) : Except String (List (String × ℚ)) :=
  if scheme = "sample" then normalizeWeights (sampleRawWeights st year)
  else if scheme = "value" then
    match weightingData with
    | none => Except.error "weighting_data required for value weighting"
    | some wd => normalizeWeights (valueRawWeights st year wd)
  else if scheme = "unit" then
    match weightingData with
    | none => Except.error "weighting_data required for unit weighting"
    | some wd => normalizeWeights (unitRawWeights st year wd)
  else if scheme = "upb" then
    match weightingData with
    | none => Except.error "weighting_data required for UPB weighting"
    | some wd => normalizeWeights (upbRawWeights st year wd)
  else if scheme = "college" then
    match weightingData with
    | none => Except.error "weighting_data required for demographic weighting"
    | some wd => normalizeWeights (demographicRawWeights (fun w => w.collegePopulation) st year wd)
  else if scheme = "non_white" then
    match weightingData with
    | none => Except.error "weighting_data required for demographic weighting"
    | some wd => normalizeWeights (demographicRawWeights (fun w => w.nonWhitePopulation) st year wd)
  else Except.error ("Unknown weighting scheme: " ++ scheme)


/-! ## BMN regression engine entry points (src/index/bmn_regression.py)
The OLS fit itself (statsmodels) enters the model as a function parameter
that may fail; run_regression and the coefficient queries are embedded
around it. -/

structure FitResult where
  params : List ℚ
deriving Repr, DecidableEq

/-- BMNRegression.run_regression: resolve a defaulted year range from the
data (pandas min/max of an empty column is NaN and range(NaN, ...) then
raises, so empty data under a defaulted bound is an error), build the
design data, raise on zero observations, then fit.  Returns the fit result
together with the time-period list and the base period. -/
def runRegression (fit : List (List Int) → List ℚ → Except String FitResult)
    (pairs : List Sale) (startYear? endYear? : Option Int) :
    Except String (FitResult × List Int × Int) :=
  let startRes : Except String Int :=
    match startYear?, (pairs.map (fun p => p.firstYear)).min? with
    | some s, _ => Except.ok s
    | none, some m => Except.ok m
    | none, none => Except.error "TypeError: NaN cannot be interpreted as an integer"
  let endRes : Except String Int :=
    match endYear?, (pairs.map (fun p => p.secondYear)).max? with
    | some e, _ => Except.ok e
    | none, some m => Except.ok m
    | none, none => Except.error "TypeError: NaN cannot be interpreted as an integer"
  match startRes, endRes with
  | Except.error msg, _ => Except.error msg
  | _, Except.error msg => Except.error msg
  | Except.ok s, Except.ok e =>
    let y := (prepareRegressionData s e pairs).2.1
    if y.length = 0 then Except.error "No observations available for regression"
    else
      match fit (prepareRegressionData s e pairs).1 y with
      | Except.error msg => Except.error msg
      | Except.ok r => Except.ok (r, yearsRange s e, s)

/-- BMNRegression.get_coefficient_for_year: 0 at the base period, a lookup
error for a year outside the fitted periods, else the fitted parameter of
that year (numpy raises IndexError when the parameter vector is too
short). -/
def getCoefficientForYear (params : List ℚ) (timePeriods : List Int)
    (basePeriod : Int) (year : Int) : Except String ℚ :=
  if year = basePeriod then Except.ok 0
  else if year ∈ timePeriods then
    let yearIdx := timePeriods.indexOf year
    if yearIdx = 0 then Except.ok 0
    else if h : yearIdx - 1 < params.length then
      Except.ok (params.get ⟨yearIdx - 1, h⟩)
    else Except.error "IndexError: index out of bounds"
  else Except.error "Year not in regression time periods"

/-- The body of the try block of run_bmn_for_supertract: run the regression
with a defaulted year range, then read the coefficients of the target year
and the prior year. -/
def bmnInner (fit : List (List Int) → List ℚ → Except String FitResult)
    (sales : List Sale) (year : Int) : Except String (ℚ × ℚ) :=
  match runRegression fit sales none none with
  | Except.error msg => Except.error msg
  | Except.ok (res, tp, bp) =>
    match getCoefficientForYear res.params tp bp year with
    | Except.error msg => Except.error msg
    | Except.ok coefT =>
      match getCoefficientForYear res.params tp bp (year - 1) with
      | Except.error msg => Except.error msg
      | Except.ok coefPrev => Except.ok (coefT - coefPrev, coefT)

/-- run_bmn_for_supertract: filter the sales to the supertract's tracts; an
empty selection short-circuits to (0, 0); any exception of the try block is
caught and converted to (0, 0). -/
def runBmnForSupertract (fit : List (List Int) → List ℚ → Except String FitResult)
    (repeatSales : List Sale) (supertractTracts : List String) (year : Int) :
    ℚ × ℚ :=
  let supertractSales :=
    repeatSales.filter (fun s => decide (s.tract ∈ supertractTracts))
  if supertractSales.length = 0 then (0, 0)
  else
    match bmnInner fit supertractSales year with
    | Except.ok v => v
    | Except.error _ => (0, 0)


/-! ## City-level aggregation (src/index/aggregation.py) -/

/-- Loop of the first-occurrence deduplication, carrying the elements
already seen. -/
def uniqueKeepAux {α : Type} [DecidableEq α] (seen : List α) : List α → List α
  | [] => []
  | x :: xs =>
    if x ∈ seen then uniqueKeepAux seen xs
    else x :: uniqueKeepAux (x :: seen) xs

/-- First-occurrence deduplication: the key order of a Python dict built by
insertion, of pandas unique(), and of iterating a set built from a list, as
used for the metro list and the groupby keys.  Keeps the first occurrence
of each element and drops the later ones. -/
def uniqueKeep {α : Type} [DecidableEq α] (l : List α) : List α :=
  uniqueKeepAux [] l

structure AppRow where
  supertractId : String
  cbsa : String
  appreciationRate : ℚ
  nObservations : Nat
deriving Repr, DecidableEq

structure CityResult where
  cbsa : String
  year : Int
  weightingScheme : String
  appreciationRate : ℚ
  nSupertracts : Nat
  totalObservations : Nat
deriving Repr, DecidableEq

/-- weights.reindex(ids).fillna(0): look each id up in the weight vector,
defaulting to 0; pandas refuses to reindex a vector whose own index holds
duplicate labels. -/
def alignWeights (w : List (String × ℚ)) (ids : List String) :
    Except String (List ℚ) :=
  if (w.map Prod.fst).Nodup then
    Except.ok (ids.map (fun i =>
      ((w.find? (fun p => decide (p.1 = i))).map Prod.snd).getD 0))
  else Except.error "cannot reindex on an axis with duplicate labels"

/-- The try block of one (metro, scheme) unit of
CityLevelAggregator.aggregate_to_city_level: compute the scheme weights
over the metro's supertract definitions for the year, align them with the
metro's appreciation rows, and take the weighted sum.  The error branch is
the exception the source's except clause catches. -/
def schemeWeightedRate (scheme : String) (cbsaDefs : List SupertractRow)
    (year : Int) (weightingData : Option (List WeightRow))
    (cbsaApp : List AppRow) : Except String ℚ :=
  match calculateWeights scheme cbsaDefs year weightingData with
  | Except.error msg => Except.error msg
  | Except.ok w =>
    match alignWeights w (cbsaApp.map (fun r => r.supertractId)) with
    | Except.error msg => Except.error msg
    | Except.ok aligned =>
      Except.ok (((aligned.zip (cbsaApp.map (fun r => r.appreciationRate))).map
        (fun p => p.1 * p.2)).sum)

/-- CityLevelAggregator.aggregate_to_city_level: one record per
(metro, scheme), metros in first-appearance order; a failed weighting is
caught and written out as a zero-appreciation record carrying the same
supertract count and total observations. -/
def aggregateToCityLevel (supertractAppreciation : List AppRow)
    (supertractsDf : List SupertractRow) (year : Int)
    (weightingData : Option (List WeightRow)) (weightingSchemes : List String) :
    List CityResult :=
  (uniqueKeep (supertractAppreciation.map (fun r => r.cbsa))).flatMap (fun cbsaId =>
    let cbsaApp := supertractAppreciation.filter (fun r => decide (r.cbsa = cbsaId))
    let cbsaDefs := supertractsDf.filter
      (fun d => decide (d.cbsa = cbsaId ∧ d.year = year))
    weightingSchemes.map (fun scheme =>
      match schemeWeightedRate scheme cbsaDefs year weightingData cbsaApp with
      | Except.ok rate =>
        ⟨cbsaId, year, scheme, rate, cbsaApp.length,
          (cbsaApp.map (fun r => r.nObservations)).sum⟩
      | Except.error _ =>
        ⟨cbsaId, year, scheme, 0, cbsaApp.length,
          (cbsaApp.map (fun r => r.nObservations)).sum⟩))


/-! ## Index chaining (src/output/export.py)
The float exp of the source enters as the function parameter expf; the
chainer state carries the configured base value and the (mutable in the
source) base year. -/

structure CityRow where
  cbsa : String
  weightingScheme : String
  year : Int
  appreciationRate : ℚ
deriving Repr, DecidableEq

structure ChainerState where
  baseValue : ℚ
  baseYear : Option Int
deriving Repr, DecidableEq

/-- Insertion step of the year sort (sort_values('year')). -/
def insertByYear (r : CityRow) : List CityRow → List CityRow
  | [] => [r]
  | x :: xs => if r.year ≤ x.year then r :: x :: xs else x :: insertByYear r xs

/-- Sort the filtered rows ascending by year. -/
def sortByYear : List CityRow → List CityRow
  | [] => []
  | x :: xs => insertByYear x (sortByYear xs)

/-- The rows of one (metro, scheme) series, sorted by year. -/
def filteredSorted (df : List CityRow) (cbsaId scheme : String) : List CityRow :=
  sortByYear (df.filter
    (fun r => decide (r.cbsa = cbsaId ∧ r.weightingScheme = scheme)))

/-- Forward chaining loop: index_values[i] = index_values[i-1] * exp(rate[i])
for the successive rates, starting from the value v of the previous
position. -/
def chainForward (expf : ℚ → ℚ) (v : ℚ) : List ℚ → List ℚ
  | [] => []
  | r :: rs => (v * expf r) :: chainForward expf (v * expf r) rs

/-- Backward chaining loop: fed the rates in reverse
(rate[k], ..., rate[1]), produces positions 0..k-1 in ascending position
order, each index_values[i] = index_values[i+1] / exp(rate[i+1]). -/
def chainBackward (expf : ℚ → ℚ) (v : ℚ) : List ℚ → List ℚ
  | [] => []
  | r :: rs => chainBackward expf (v / expf r) rs ++ [v / expf r]

/-- IndexChainer.chain_appreciation_rates: filter and sort the series,
return it unchanged-state and empty on no data; otherwise set the base
year to the first year if unset, anchor at the base year when present
(chaining forward after it and backward before it), else anchor at the
first position and chain forward only.  Returns the updated chainer state
and the rows (year, index_value, appreciation_rate). -/
def chainAppreciationRates (expf : ℚ → ℚ) (st : ChainerState) (df : List CityRow)
    (cbsaId scheme : String) : ChainerState × List (Int × ℚ × ℚ) :=
  let f := filteredSorted df cbsaId scheme
  if f.isEmpty then (st, [])
  else
    let years := f.map (fun r => r.year)
    let rates := f.map (fun r => r.appreciationRate)
    let st2 : ChainerState :=
      match st.baseYear with
      | none => ⟨st.baseValue, some (years.headD 0)⟩
      | some _ => st
    let b := st2.baseYear.getD 0
    let vals :=
      if b ∈ years then
        let k := years.indexOf b
        chainBackward expf st.baseValue (((rates.take (k + 1)).drop 1).reverse)
          ++ st.baseValue :: chainForward expf st.baseValue (rates.drop (k + 1))
      else
        st.baseValue :: chainForward expf st.baseValue (rates.drop 1)
    (st2, years.zip (vals.zip rates))

/-- Lexicographic codepoint comparison of character lists: the order
Python string comparison gives the groupby keys. -/
def charListLt : List Char → List Char → Bool
  | [], [] => false
  | [], _ :: _ => true
  | _ :: _, [] => false
  | c :: cs, d :: ds =>
    if c.toNat < d.toNat then true
    else if d.toNat < c.toNat then false
    else charListLt cs ds

/-- String comparison by codepoints. -/
def strLt (a b : String) : Bool :=
  charListLt a.data b.data

/-- Ordering of the pandas groupby keys: (cbsa_id, weighting_scheme)
pairs sorted lexicographically. -/
def pairLe (a b : String × String) : Bool :=
  strLt a.1 b.1 || (decide (a.1 = b.1) && !strLt b.2 a.2)

/-- Insertion step of the combination sort. -/
def insertPair (p : String × String) :
    List (String × String) → List (String × String)
  | [] => [p]
  | x :: xs => if pairLe p x then p :: x :: xs else x :: insertPair p xs

/-- Sort the distinct combinations. -/
def sortPairs : List (String × String) → List (String × String)
  | [] => []
  | x :: xs => insertPair x (sortPairs xs)

/-- The groupby(['cbsa_id', 'weighting_scheme']) key list: distinct
combinations present in the table, in sorted key order. -/
def combosOf (df : List CityRow) : List (String × String) :=
  sortPairs (uniqueKeep (df.map (fun r => (r.cbsa, r.weightingScheme))))

/-- IndexChainer.chain_all_indices: chain every (metro, scheme)
combination in key order, threading the chainer state, skipping empty
results. -/
def chainAllIndices (expf : ℚ → ℚ) (st : ChainerState) (df : List CityRow) :
    ChainerState × List ((String × String) × List (Int × ℚ × ℚ)) :=
  (combosOf df).foldl
    (fun acc combo =>
      let res := chainAppreciationRates expf acc.1 df combo.1 combo.2
      (res.1, if res.2.isEmpty then acc.2 else acc.2 ++ [(combo, res.2)]))
    (st, [])


/-! ## Spatial index (src/geography/distance.py)
One row of the geographic tract table.  GeographicDistanceCalculator
builds a cKDTree over the radian coordinates and queries it with
Euclidean distance; radians are the degree coordinates scaled by the
positive constant pi/180, so the neighbor ordering of the tree equals the
ordering by squared Euclidean distance on the degree coordinates, which
is what the model sorts by.  The returned kilometer distance
(6371 times the radian chord length) is a monotone transform of the same
quantity and is omitted, since no caller of the model reads it. -/

structure GeoRow where
  tract : String
  cbsa : String
  lat : ℚ
  lon : ℚ
deriving Repr, DecidableEq

/-- Out-of-range placeholder for positional access (never hit by the
queries modelled here, whose indices come from enumeration). -/
def geoDefault : GeoRow := ⟨"", "", 0, 0⟩

/-- Python enumerate over the geographic rows. -/
def enumRows (i : Nat) : List GeoRow → List (Nat × GeoRow)
  | [] => []
  | r :: rs => (i, r) :: enumRows (i + 1) rs

/-- tract_to_idx: the dict comprehension maps a tract id to the position
of its last occurrence. -/
def tractIdx (geo : List GeoRow) (t : String) : Option Nat :=
  (((enumRows 0 geo).filter (fun p => decide (p.2.tract = t))).getLast?).map
    (fun p => p.1)

/-- Squared Euclidean distance on degree coordinates. -/
def sqDistDeg (lat1 lon1 lat2 lon2 : ℚ) : ℚ :=
  (lat1 - lat2) * (lat1 - lat2) + (lon1 - lon2) * (lon1 - lon2)

/-- Insertion step of the neighbor sort by ascending key. -/
def insertRowBy (key : Nat × GeoRow → ℚ) (p : Nat × GeoRow) :
    List (Nat × GeoRow) → List (Nat × GeoRow)
  | [] => [p]
  | x :: xs => if key p ≤ key x then p :: x :: xs else x :: insertRowBy key p xs

/-- Sort enumerated rows by ascending key. -/
def sortRowsBy (key : Nat × GeoRow → ℚ) : List (Nat × GeoRow) → List (Nat × GeoRow)
  | [] => []
  | x :: xs => insertRowBy key x (sortRowsBy key xs)

/-- tree.query(..., k): the k nearest rows to the query row, nearest
first, with their positions. -/
def kNearest (geo : List GeoRow) (qrow : GeoRow) (k : Nat) : List (Nat × GeoRow) :=
  (sortRowsBy (fun p => sqDistDeg qrow.lat qrow.lon p.2.lat p.2.lon)
    (enumRows 0 geo)).take k

/-- GeographicDistanceCalculator.get_nearest_neighbor: query the capped
k = min(n, 20) nearest rows, return the first whose tract is neither the
query tract itself nor excluded, and fail otherwise. -/
def getNearestNeighbor (geo : List GeoRow) (tractId : String)
    (excludeTracts : List String) : Except String String :=
  match tractIdx geo tractId with
  | none => Except.error "Tract not found in geographic data"
  | some q =>
    let k := min geo.length 20
    match (kNearest geo (geo.getD q geoDefault) k).find? (fun p =>
        !decide (p.2.tract = tractId) &&
        !decide (p.2.tract ∈ excludeTracts)) with
    | some p => Except.ok p.2.tract
    | none => Except.error "No valid neighbor found"


/-- A 21-tract metro whose query tract q has its 19 nearest neighbors
e01..e19 within 19 degrees of longitude while the only other tract v1
lies 100 degrees away. -/
def geo21 : List GeoRow := [⟨"q", "m", 0, 0⟩,
  ⟨"e01", "m", 0, 1⟩,
  ⟨"e02", "m", 0, 2⟩,
  ⟨"e03", "m", 0, 3⟩,
  ⟨"e04", "m", 0, 4⟩,
  ⟨"e05", "m", 0, 5⟩,
  ⟨"e06", "m", 0, 6⟩,
  ⟨"e07", "m", 0, 7⟩,
  ⟨"e08", "m", 0, 8⟩,
  ⟨"e09", "m", 0, 9⟩,
  ⟨"e10", "m", 0, 10⟩,
  ⟨"e11", "m", 0, 11⟩,
  ⟨"e12", "m", 0, 12⟩,
  ⟨"e13", "m", 0, 13⟩,
  ⟨"e14", "m", 0, 14⟩,
  ⟨"e15", "m", 0, 15⟩,
  ⟨"e16", "m", 0, 16⟩,
  ⟨"e17", "m", 0, 17⟩,
  ⟨"e18", "m", 0, 18⟩,
  ⟨"e19", "m", 0, 19⟩,
  ⟨"v1", "m", 0, 100⟩]

/-- An exclusion set that covers the 19 tracts nearest to q. -/
def excl19 : List String := ["e01", "e02", "e03", "e04", "e05", "e06", "e07", "e08", "e09", "e10", "e11", "e12", "e13", "e14", "e15", "e16", "e17", "e18", "e19"]


/-! ## Supertract generation (src/geography/supertract.py)
The pairwise tract distance get_distance_between_tracts enters as the
total function parameter dist: inside generate_supertracts_for_year every
queried tract comes from the same geographic table the distance
calculator was built over, so its tract-not-found ValueError (the only
exception the neighbor scan would swallow) is unreachable there. -/

/-- calculate_half_pairs: transactions of the tract whose first or second
sale falls in the given year. -/
def halfPairs (sales : List Sale) (year : Int) (tract : String) : Nat :=
  ((sales.filter (fun s => decide (s.tract = tract))).filter
    (fun s => decide (s.firstYear = year))).length +
  ((sales.filter (fun s => decide (s.tract = tract))).filter
    (fun s => decide (s.secondYear = year))).length

/-- calculate_half_pairs_multi: the same count over a tract set. -/
def halfPairsMulti (sales : List Sale) (year : Int) (tracts : List String) : Nat :=
  ((sales.filter (fun s => decide (s.tract ∈ tracts))).filter
    (fun s => decide (s.firstYear = year))).length +
  ((sales.filter (fun s => decide (s.tract ∈ tracts))).filter
    (fun s => decide (s.secondYear = year))).length

/-- set(cbsa_tracts) - processed_tracts: the unprocessed tracts of the
metro. -/
def availableTracts (cbsaTracts processed : List String) : List String :=
  (uniqueKeep cbsaTracts).filter (fun t => decide (t ∉ processed))

/-- Inner scan of _find_nearest_unprocessed_neighbor over the
(cluster tract, candidate) pairs: a strictly closer pair replaces the
best seen so far. -/
def scanPairs (dist : String → String → ℚ) :
    List (String × String) → Option (ℚ × String) → Option (ℚ × String)
  | [], acc => acc
  | (t, c) :: rest, acc =>
    match acc with
    | none => scanPairs dist rest (some (dist t c, c))
    | some (m, b) =>
      if dist t c < m then scanPairs dist rest (some (dist t c, c))
      else scanPairs dist rest (some (m, b))

/-- _find_nearest_unprocessed_neighbor: none when no unprocessed tract
remains, else the available tract at minimum pairwise distance from the
cluster. -/
def nearestNeighborTract (dist : String → String → ℚ) (cluster : List String)
    (available : List String) : Option String :=
  if available.isEmpty then none
  else
    match scanPairs dist
        (cluster.flatMap (fun t => available.map (fun c => (t, c)))) none with
    | none => none
    | some (_, b) => some b

/-- The inner while loop of generate_supertracts_for_year: grow the
cluster until both half-pair counts meet the threshold or no unprocessed
neighbor remains; each merge marks the neighbor processed and removes it
from the unprocessed list. -/
def growCluster (sales : List Sale) (year : Int) (thr : Nat)
    (dist : String → String → ℚ) (cbsaTracts : List String)
    (cluster processed unprocessed : List String) :
    List String × List String × List String :=
  if thr ≤ halfPairsMulti sales year cluster ∧
      thr ≤ halfPairsMulti sales (year - 1) cluster then
    (cluster, processed, unprocessed)
  else
    match h : nearestNeighborTract dist cluster
        (availableTracts cbsaTracts processed) with
    | none => (cluster, processed, unprocessed)
    | some nb =>
      growCluster sales year thr dist cbsaTracts (cluster ++ [nb])
        (processed ++ [nb]) (unprocessed.erase nb)
termination_by (availableTracts cbsaTracts processed).length
decreasing_by
  have hscan : ∀ (pairs : List (String × String)) (acc : Option (ℚ × String))
      (m : ℚ) (b : String), scanPairs dist pairs acc = some (m, b) →
      b ∈ pairs.map (fun tc => tc.2) ∨ ∃ m0, acc = some (m0, b) := by
    intro pairs
    induction pairs with
    | nil =>
      intro acc m b hb
      simp only [scanPairs] at hb
      exact Or.inr ⟨m, hb⟩
    | cons p rest ih =>
      obtain ⟨t, c⟩ := p
      intro acc m b hb
      rcases acc with _ | ⟨m1, b1⟩
      · simp only [scanPairs] at hb
        rcases ih _ m b hb with h1 | ⟨m0, h2⟩
        · exact Or.inl (List.mem_cons_of_mem _ h1)
        · have : c = b := congrArg (fun o => (Option.getD o (0, "")).2) h2
          exact Or.inl (by rw [← this]; exact List.mem_cons_self _ _)
      · simp only [scanPairs] at hb
        by_cases hlt : dist t c < m1
        · rw [if_pos hlt] at hb
          rcases ih _ m b hb with h1 | ⟨m0, h2⟩
          · exact Or.inl (List.mem_cons_of_mem _ h1)
          · have : c = b := congrArg (fun o => (Option.getD o (0, "")).2) h2
            exact Or.inl (by rw [← this]; exact List.mem_cons_self _ _)
        · rw [if_neg hlt] at hb
          rcases ih _ m b hb with h1 | ⟨m0, h2⟩
          · exact Or.inl (List.mem_cons_of_mem _ h1)
          · have : b1 = b := congrArg (fun o => (Option.getD o (0, "")).2) h2
            exact Or.inr ⟨m1, by rw [this]⟩
  have hnb : nb ∈ availableTracts cbsaTracts processed := by
    rw [nearestNeighborTract] at h
    by_cases hav : (availableTracts cbsaTracts processed).isEmpty
    · rw [if_pos hav] at h
      exact absurd h (by simp)
    · rw [if_neg hav] at h
      cases hs : scanPairs dist
          ((cluster.flatMap (fun t =>
            (availableTracts cbsaTracts processed).map (fun c => (t, c))))) none with
      | none => rw [hs] at h; exact absurd h (by simp)
      | some mb =>
        obtain ⟨m, b⟩ := mb
        rw [hs] at h
        have hbnb : b = nb := by
          injection h
        rcases hscan _ _ m b hs with h1 | ⟨m0, h2⟩
        · rw [← hbnb]
          rcases List.mem_map.mp h1 with ⟨tc, htc, hsnd⟩
          rcases List.mem_flatMap.mp htc with ⟨t2, _, hmem2⟩
          rcases List.mem_map.mp hmem2 with ⟨c2, hc2, hpair⟩
          rw [← hsnd, ← hpair]
          exact hc2
        · exact absurd h2 (by simp)
  have hfilter : availableTracts cbsaTracts (processed ++ [nb])
      = (availableTracts cbsaTracts processed).filter (fun t => decide (t ≠ nb)) := by
    rw [availableTracts, availableTracts, List.filter_filter]
    refine List.filter_congr ?_
    intro t _
    by_cases h1 : t ∈ processed <;> by_cases h2 : t = nb <;>
      simp [h1, h2, List.mem_append]
  have hstrict : ∀ (l : List String), nb ∈ l →
      (l.filter (fun t => decide (t ≠ nb))).length < l.length := by
    intro l hl
    induction l with
    | nil => simp at hl
    | cons a l2 ih =>
      rcases List.mem_cons.mp hl with heq | hmem
      · simp only [List.filter_cons]
        rw [show (decide (a ≠ nb)) = false by simp [heq]]
        exact Nat.lt_succ_of_le (List.length_filter_le _ _)
      · by_cases hpa : a = nb
        · simp only [List.filter_cons]
          rw [show (decide (a ≠ nb)) = false by simp [hpa]]
          exact Nat.lt_succ_of_le (List.length_filter_le _ _)
        · simp only [List.filter_cons]
          rw [show (decide (a ≠ nb)) = true by simp [hpa]]
          simpa using Nat.succ_lt_succ (ih hmem)
  rw [hfilter]
  exact hstrict _ hnb


/-- The outer while loop of generate_supertracts_for_year: repeatedly
start a cluster at the first unprocessed tract, mark it processed, grow
the cluster, and emit it. -/
def secondPass (sales : List Sale) (year : Int) (thr : Nat)
    (dist : String → String → ℚ) (cbsaTracts : List String) :
    List String → List String → List (List String)
  | _, [] => []
  | processed, t :: rest =>
    let g := growCluster sales year thr dist cbsaTracts [t] (processed ++ [t])
      ((t :: rest).erase t)
    g.1 :: secondPass sales year thr dist cbsaTracts g.2.1 g.2.2
termination_by _ unprocessed => unprocessed.length
decreasing_by
  have hle : ∀ (cl pr un : List String),
      (growCluster sales year thr dist cbsaTracts cl pr un).2.2.length ≤ un.length := by
    intro cl pr un
    induction cl, pr, un using growCluster.induct sales year thr dist cbsaTracts with
    | case1 cl pr un hthr => rw [growCluster, if_pos hthr]
    | case2 cl pr un hthr hnone =>
      rw [growCluster, if_neg hthr]
      split
      · rfl
      · exact absurd (by assumption) (by rw [hnone]; intro hc; exact Option.noConfusion hc)
    | case3 cl pr un hthr nb hnb ih =>
      rw [growCluster, if_neg hthr]
      split
      · rfl
      · next nb2 hnb2 =>
        have : nb2 = nb := by
          rw [hnb] at hnb2
          exact (Option.some.injEq _ _).mp hnb2.symm
        subst this
        exact le_trans ih (List.Sublist.length_le (List.erase_sublist _ _))
  calc (growCluster sales year thr dist cbsaTracts [t] (processed ++ [t])
        ((t :: rest).erase t)).2.2.length
      ≤ ((t :: rest).erase t).length := hle _ _ _
    _ < (t :: rest).length := by
        rw [List.erase_cons_head]
        exact Nat.lt_succ_self _


/-- Ghost-instrumented variant of the outer loop: alongside each emitted
cluster it records the unprocessed tracts remaining at the moment of
emission (the set the source's warning branch consults).  Erasing the
snapshots gives secondPass back. -/
def secondPassTrace (sales : List Sale) (year : Int) (thr : Nat)
    (dist : String → String → ℚ) (cbsaTracts : List String) :
    List String → List String → List (List String × List String)
  | _, [] => []
  | processed, t :: rest =>
    let g := growCluster sales year thr dist cbsaTracts [t] (processed ++ [t])
      ((t :: rest).erase t)
    (g.1, availableTracts cbsaTracts g.2.1)
      :: secondPassTrace sales year thr dist cbsaTracts g.2.1 g.2.2
termination_by _ unprocessed => unprocessed.length
decreasing_by
  have hle : ∀ (cl pr un : List String),
      (growCluster sales year thr dist cbsaTracts cl pr un).2.2.length ≤ un.length := by
    intro cl pr un
    induction cl, pr, un using growCluster.induct sales year thr dist cbsaTracts with
    | case1 cl pr un hthr => rw [growCluster, if_pos hthr]
    | case2 cl pr un hthr hnone =>
      rw [growCluster, if_neg hthr]
      split
      · rfl
      · exact absurd (by assumption) (by rw [hnone]; intro hc; exact Option.noConfusion hc)
    | case3 cl pr un hthr nb hnb ih =>
      rw [growCluster, if_neg hthr]
      split
      · rfl
      · next nb2 hnb2 =>
        have : nb2 = nb := by
          rw [hnb] at hnb2
          exact (Option.some.injEq _ _).mp hnb2.symm
        subst this
        exact le_trans ih (List.Sublist.length_le (List.erase_sublist _ _))
  calc (growCluster sales year thr dist cbsaTracts [t] (processed ++ [t])
        ((t :: rest).erase t)).2.2.length
      ≤ ((t :: rest).erase t).length := hle _ _ _
    _ < (t :: rest).length := by
        rw [List.erase_cons_head]
        exact Nat.lt_succ_self _

/-- The repeat-sales rows of the metro: repeat_sales_df filtered to the
cbsa. -/
def cbsaSalesOf (sales : List Sale) (cbsaId : String) : List Sale :=
  sales.filter (fun s => decide (s.cbsa = cbsaId))

/-- The census_tract_2010 column of the metro rows of the geographic
table. -/
def cbsaTractsOf (geo : List GeoRow) (cbsaId : String) : List String :=
  (geo.filter (fun g => decide (g.cbsa = cbsaId))).map (fun g => g.tract)

/-- First pass: the tracts (in first-occurrence order of the tract
column, the iteration order of the tract_halfpairs dict) meeting the
half-pair threshold in both the target and the prior year. -/
def firstPassSingles (sales : List Sale) (geo : List GeoRow)
    (minHalfPairsThr : Nat) (year : Int) (cbsaId : String) : List String :=
  (uniqueKeep (cbsaTractsOf geo cbsaId)).filter (fun t =>
    decide (minHalfPairsThr ≤ halfPairs (cbsaSalesOf sales cbsaId) year t ∧
      minHalfPairsThr ≤ halfPairs (cbsaSalesOf sales cbsaId) (year - 1) t))

/-- generate_supertracts_for_year: tracts meeting the threshold in both
the target and the prior year become singleton supertracts in the first
pass; the remaining tracts are clustered by the merge loop.  The emitted
clusters stand for the supertract dict in emission order (ids
cbsa_year_ST0000, ... are assigned by that order). -/
def generateSupertractsForYear (sales : List Sale) (geo : List GeoRow)
    (minHalfPairsThr : Nat) (dist : String → String → ℚ) (year : Int)
    (cbsaId : String) : List (List String) :=
  (firstPassSingles sales geo minHalfPairsThr year cbsaId).map (fun t => [t])
    ++ secondPass (cbsaSalesOf sales cbsaId) year minHalfPairsThr dist
      (cbsaTractsOf geo cbsaId)
      (firstPassSingles sales geo minHalfPairsThr year cbsaId)
      (availableTracts (cbsaTractsOf geo cbsaId)
        (firstPassSingles sales geo minHalfPairsThr year cbsaId))

/-- A five-sale demonstration metro: two repeat sales in tract A, two in
tract B and one in tract C, all bridging 2000 to 2001. -/
def demoSales : List Sale :=
  [⟨"A", "M", 2000, 2001, 0⟩, ⟨"A", "M", 2000, 2001, 0⟩,
   ⟨"B", "M", 2000, 2001, 0⟩, ⟨"B", "M", 2000, 2001, 0⟩,
   ⟨"C", "M", 2000, 2001, 0⟩]

/-- Geographic table for the demonstration metro. -/
def demoGeo : List GeoRow :=
  [⟨"A", "M", 0, 0⟩, ⟨"B", "M", 0, 0⟩, ⟨"C", "M", 0, 0⟩]

/-- A constant distance function for the demonstration metro. -/
def demoDist : String → String → ℚ := fun _ _ => 1

-- DEFS-END

/-! ### Generic list access helpers -/

theorem getD_set (l : List Int) (i j : Nat) (a d : Int) :
    (l.set i a).getD j d = if i = j ∧ j < l.length then a else l.getD j d := by
  rcases eq_or_ne i j with h | h
  · subst h
    by_cases hl : i < l.length
    · simp [List.getD_eq_getElem?_getD, List.getElem?_set, hl]
    · simp [List.getD_eq_getElem?_getD, List.getElem?_set, hl,
        List.set_eq_of_length_le (Nat.le_of_not_lt hl)]
  · simp [List.getD_eq_getElem?_getD, List.getElem?_set, h]

theorem getD_replicate (n j : Nat) (x d : Int) :
    (List.replicate n x).getD j d = if j < n then x else d := by
  by_cases h : j < n <;> simp [List.getD_eq_getElem?_getD, List.getElem?_replicate, h]

/-- A pair whose sale years trip the range guard keeps its (all-zero)
design-matrix row. -/
theorem bmnRow_out_of_range (s e : Int) (p : Sale)
    (h : p.firstYear < s ∨ e < p.secondYear) :
    bmnRow s e p = List.replicate (e - s).toNat 0 := by
  have ht : (e - s + 1 - 1).toNat = (e - s).toNat := by omega
  simp only [bmnRow]
  rw [if_pos (by omega), ht]

/-- Content of the design-matrix row of a pair whose sale years pass the
range guard. -/
theorem bmnRow_in_range_getD (s e : Int) (p : Sale)
    (h1 : s ≤ p.firstYear) (h2 : p.secondYear ≤ e) (h3 : p.firstYear ≤ p.secondYear)
    (j : Nat) :
    (bmnRow s e p).getD j 0 =
      if p.secondYear ≠ s ∧ (j : Int) = p.secondYear - s - 1 then 1
      else if p.firstYear ≠ s ∧ (j : Int) = p.firstYear - s - 1 then -1
      else 0 := by
  simp only [bmnRow]
  rw [if_neg (by omega)]
  by_cases hsi : (0:Int) < p.secondYear - s
  · rw [if_pos hsi]
    by_cases hfi : (0:Int) < p.firstYear - s
    · rw [if_pos hfi, getD_set, getD_set, getD_replicate]
      simp only [List.length_set, List.length_replicate]
      split_ifs <;> omega
    · rw [if_neg hfi, getD_set, getD_replicate]
      simp only [List.length_replicate]
      split_ifs <;> omega
  · rw [if_neg hsi, if_neg (by omega), getD_replicate]
    split_ifs <;> omega

/-- Claim C1, as stated, is false: a pair whose first-sale year precedes
start_year is not excluded from the regression.  Concretely, with
start_year 2000 and end_year 2001, the table holding an in-range pair
(2000 to 2001, log relative 1) and an out-of-range pair (1990 to 2001,
log relative 7) yields a design matrix with two rows (the second all
zero) and a response vector that still holds the out-of-range pair's
log price relative 7, whereas the claim would give one row and one
response entry. -/
theorem bmn_out_of_range_pair_not_excluded :
    (prepareRegressionData 2000 2001
        [⟨"t", "m", 2000, 2001, 1⟩, ⟨"t", "m", 1990, 2001, 7⟩]).1 = [[1], [0]] ∧
    (prepareRegressionData 2000 2001
        [⟨"t", "m", 2000, 2001, 1⟩, ⟨"t", "m", 1990, 2001, 7⟩]).2.1 = [1, 7] ∧
    (prepareRegressionData 2000 2001
        [⟨"t", "m", 2000, 2001, 1⟩, ⟨"t", "m", 1990, 2001, 7⟩]).2.1.length ≠ 1 := by
  refine ⟨by decide, by decide, by decide⟩

/-- Claim C1 (amended): every pair of the table, in range or not,
contributes exactly one design-matrix row and one response entry, in table
order.  A pair whose first-sale year precedes start_year or whose
second-sale year is beyond end_year keeps an all-zero row (its time
dummies are simply never set) while its log price relative stays in the
response vector; an in-range pair's row holds +1 in the column of its
second-sale year (if not the base year), -1 in the column of its
first-sale year (if not the base year; when both sale years coincide at a
non-base year the +1 overwrites the -1), and 0 elsewhere, with its log
price relative as the response. -/
theorem bmn_design_matrix_spec (s e : Int) (hse : s ≤ e) (pairs : List Sale) :
    (prepareRegressionData s e pairs).1.length = pairs.length ∧
    (prepareRegressionData s e pairs).2.1.length = pairs.length ∧
    ∀ i : Nat, ∀ hi : i < pairs.length,
      ((prepareRegressionData s e pairs).2.1.getD i 0
          = (pairs.get ⟨i, hi⟩).logPriceRelative) ∧
      ((prepareRegressionData s e pairs).1.getD i []
          = bmnRow s e (pairs.get ⟨i, hi⟩)) ∧
      (((pairs.get ⟨i, hi⟩).firstYear < s ∨ e < (pairs.get ⟨i, hi⟩).secondYear) →
        bmnRow s e (pairs.get ⟨i, hi⟩) = List.replicate (e - s).toNat 0) ∧
      (s ≤ (pairs.get ⟨i, hi⟩).firstYear → (pairs.get ⟨i, hi⟩).secondYear ≤ e →
        (pairs.get ⟨i, hi⟩).firstYear ≤ (pairs.get ⟨i, hi⟩).secondYear →
        ∀ j : Nat,
          (bmnRow s e (pairs.get ⟨i, hi⟩)).getD j 0 =
            if (pairs.get ⟨i, hi⟩).secondYear ≠ s ∧
                (j : Int) = (pairs.get ⟨i, hi⟩).secondYear - s - 1 then 1
            else if (pairs.get ⟨i, hi⟩).firstYear ≠ s ∧
                (j : Int) = (pairs.get ⟨i, hi⟩).firstYear - s - 1 then -1
            else 0) := by
  refine ⟨by simp [prepareRegressionData], by simp [prepareRegressionData], ?_⟩
  intro i hi
  refine ⟨?_, ?_, bmnRow_out_of_range s e _, bmnRow_in_range_getD s e _⟩
  · rw [List.getD_eq_getElem _ _ (by simpa [prepareRegressionData] using hi)]
    simp [prepareRegressionData]
  · rw [List.getD_eq_getElem _ _ (by simpa [prepareRegressionData] using hi)]
    simp [prepareRegressionData]

/-- Instantiation of the amended claim C1 at a concrete table: one
in-range pair (2001 to 2002) and one out-of-range pair (1990 to 2001)
over the range 2000-2002. -/
theorem bmn_design_matrix_spec_witness :
    (2000 : Int) ≤ 2002 ∧
    (prepareRegressionData 2000 2002
        [⟨"t", "m", 2001, 2002, 5⟩, ⟨"t", "m", 1990, 2001, 7⟩]).1.length = 2 ∧
    (bmnRow 2000 2002 ⟨"t", "m", 2001, 2002, 5⟩).getD 1 0 = 1 ∧
    bmnRow 2000 2002 ⟨"t", "m", 1990, 2001, 7⟩ = [0, 0] := by
  have h := bmn_design_matrix_spec 2000 2002 (by decide)
      [⟨"t", "m", 2001, 2002, 5⟩, ⟨"t", "m", 1990, 2001, 7⟩]
  refine ⟨by decide, h.1, ?_, ?_⟩
  · exact ((h.2.2 0 (by decide)).2.2.2 (by decide) (by decide) (by decide) 1).trans
      (by decide)
  · exact ((h.2.2 1 (by decide)).2.2.1 (Or.inl (by decide))).trans (by decide)

theorem sum_map_pair_const (w : List (String × ℚ)) (c : ℚ) :
    ((w.map (fun p => ((p.1, c) : String × ℚ))).map Prod.snd).sum = w.length * c := by
  induction w with
  | nil => simp
  | cons a l ih =>
    simp only [List.map_cons, List.sum_cons, ih, List.length_cons]
    push_cast
    ring

theorem sum_map_pair_div (w : List (String × ℚ)) (c : ℚ) :
    ((w.map (fun p => ((p.1, p.2 / c) : String × ℚ))).map Prod.snd).sum
      = (w.map (fun p => p.2)).sum / c := by
  induction w with
  | nil => simp
  | cons a l ih =>
    simp only [List.map_cons, List.sum_cons, ih]
    rw [add_div]

/-- Behaviour of normalize_weights on a non-empty weight vector: the ids
are kept, the result sums to exactly one, and a zero raw sum yields the
equal weight 1/len everywhere. -/
theorem normalizeWeights_spec (w : List (String × ℚ)) (hw : w ≠ []) :
    ∃ v, normalizeWeights w = Except.ok v ∧
      v.map Prod.fst = w.map Prod.fst ∧
      (v.map Prod.snd).sum = 1 ∧
      ((w.map (fun p => p.2)).sum = 0 → ∀ p ∈ v, p.2 = 1 / (w.length : ℚ)) := by
  have hlen : w.length ≠ 0 := by simpa [List.length_eq_zero] using hw
  unfold normalizeWeights
  by_cases hs : (w.map (fun p => p.2)).sum = 0
  · rw [if_pos hs, if_neg hlen]
    refine ⟨_, rfl, by simp, ?_, ?_⟩
    · rw [sum_map_pair_const, mul_one_div, div_self (by exact_mod_cast hlen)]
    · intro _ p hp
      rcases List.mem_map.mp hp with ⟨q, _, hq⟩
      exact congrArg Prod.snd hq.symm
  · rw [if_neg hs]
    refine ⟨_, rfl, by simp, ?_, fun h => absurd h hs⟩
    rw [sum_map_pair_div, div_self hs]



/-- Normalizing a raw weight vector built over the year rows of the
supertract table: shared shape of all six schemes. -/
theorem normalized_raw_spec (st : List SupertractRow) (year : Int)
    (val : SupertractRow → ℚ) (hne : yearRows st year ≠ []) :
    ∃ v, normalizeWeights ((yearRows st year).map (fun r => (r.supertractId, val r)))
        = Except.ok v ∧
      v.map Prod.fst = (yearRows st year).map (fun r => r.supertractId) ∧
      (v.map Prod.snd).sum = 1 ∧
      ((((yearRows st year).map (fun r => (r.supertractId, val r))).map
          (fun p => p.2)).sum = 0 →
        ∀ p ∈ v, p.2 = 1 / ((yearRows st year).length : ℚ)) := by
  have hraw : (yearRows st year).map (fun r => (r.supertractId, val r)) ≠ [] := by
    intro h
    exact hne (List.map_eq_nil_iff.mp h)
  obtain ⟨v, h1, h2, h3, h4⟩ := normalizeWeights_spec _ hraw
  refine ⟨v, h1, ?_, h3, ?_⟩
  · rw [h2, List.map_map]
    rfl
  · intro h0 p hp
    have := h4 h0 p hp
    simpa [List.length_map] using this

/-- Claim C5: for every weighting scheme, applied to a non-empty
supertract scope for a (metro, year) with the weighting table supplied,
the returned weight vector carries exactly the supertract ids of the
scope (in scope order), sums to 1 within tolerance 1/10000, and collapses
to the equal weight 1/n on every supertract when the scheme's underlying
raw quantity sums to zero. -/
theorem weight_vector_partition_of_unity (scheme : String)
    (hs : scheme ∈ ["sample", "value", "unit", "upb", "college", "non_white"])
    (st : List SupertractRow) (year : Int) (wd : List WeightRow)
    (hne : yearRows st year ≠ []) :
    ∃ v, calculateWeights scheme st year (some wd) = Except.ok v ∧
      v.map Prod.fst = (yearRows st year).map (fun r => r.supertractId) ∧
      |(v.map Prod.snd).sum - 1| ≤ 1 / 10000 ∧
      (((rawWeights scheme st year wd).map (fun p => p.2)).sum = 0 →
        ∀ p ∈ v, p.2 = 1 / ((yearRows st year).length : ℚ)) := by
  have tol : ∀ q : ℚ, q = 1 → |q - 1| ≤ 1 / 10000 := by
    intro q hq
    rw [hq]
    norm_num
  simp only [List.mem_cons, List.not_mem_nil, or_false] at hs
  rcases hs with rfl | rfl | rfl | rfl | rfl | rfl
  · obtain ⟨v, h1, h2, h3, h4⟩ :=
      normalized_raw_spec st year (fun r => (r.halfPairsCount : ℚ)) hne
    exact ⟨v, h1, h2, tol _ h3, h4⟩
  · obtain ⟨v, h1, h2, h3, h4⟩ := normalized_raw_spec st year
      (fun r => sumOverTracts wd (year - 1) (fun w => w.totalHousingValue)
        r.componentTracts) hne
    exact ⟨v, h1, h2, tol _ h3, h4⟩
  · obtain ⟨v, h1, h2, h3, h4⟩ := normalized_raw_spec st year
      (fun r => sumOverTracts wd year (fun w => w.totalHousingUnits)
        r.componentTracts) hne
    exact ⟨v, h1, h2, tol _ h3, h4⟩
  · obtain ⟨v, h1, h2, h3, h4⟩ := normalized_raw_spec st year
      (fun r => sumOverTracts wd year (fun w => w.totalUpb) r.componentTracts) hne
    exact ⟨v, h1, h2, tol _ h3, h4⟩
  · obtain ⟨v, h1, h2, h3, h4⟩ := normalized_raw_spec st year
      (fun r => sumOverTracts wd 2010 (fun w => w.collegePopulation)
        r.componentTracts) hne
    exact ⟨v, h1, h2, tol _ h3, h4⟩
  · obtain ⟨v, h1, h2, h3, h4⟩ := normalized_raw_spec st year
      (fun r => sumOverTracts wd 2010 (fun w => w.nonWhitePopulation)
        r.componentTracts) hne
    exact ⟨v, h1, h2, tol _ h3, h4⟩

/-- Instantiation of claim C5 at a concrete two-supertract scope under the
sample scheme. -/
theorem weight_vector_partition_of_unity_witness :
    "sample" ∈ ["sample", "value", "unit", "upb", "college", "non_white"] ∧
    yearRows [⟨"S1", 2000, "m", ["t1"], 3⟩, ⟨"S2", 2000, "m", ["t2"], 1⟩] 2000 ≠ [] ∧
    ∃ v, calculateWeights "sample"
        [⟨"S1", 2000, "m", ["t1"], 3⟩, ⟨"S2", 2000, "m", ["t2"], 1⟩] 2000 (some [])
        = Except.ok v ∧
      v.map Prod.fst = (yearRows
        [⟨"S1", 2000, "m", ["t1"], 3⟩, ⟨"S2", 2000, "m", ["t2"], 1⟩] 2000).map
          (fun r => r.supertractId) ∧
      |(v.map Prod.snd).sum - 1| ≤ 1 / 10000 ∧
      (((rawWeights "sample"
          [⟨"S1", 2000, "m", ["t1"], 3⟩, ⟨"S2", 2000, "m", ["t2"], 1⟩] 2000 []).map
            (fun p => p.2)).sum = 0 →
        ∀ p ∈ v, p.2 = 1 / ((yearRows
          [⟨"S1", 2000, "m", ["t1"], 3⟩, ⟨"S2", 2000, "m", ["t2"], 1⟩] 2000).length : ℚ)) :=
  ⟨by decide, by decide,
    weight_vector_partition_of_unity "sample" (by decide)
      [⟨"S1", 2000, "m", ["t1"], 3⟩, ⟨"S2", 2000, "m", ["t2"], 1⟩] 2000 [] (by decide)⟩

/-- Claim C9: for every weighting scheme, an empty supertract scope for
the requested year makes calculate_weights raise ZeroDivisionError (the
empty weight vector sums to zero and the equal-weight fallback divides
1.0 by its zero length), so no weight vector is returned. -/
theorem empty_scope_raises_zero_division (scheme : String)
    (hs : scheme ∈ ["sample", "value", "unit", "upb", "college", "non_white"])
    (st : List SupertractRow) (year : Int) (wd : List WeightRow)
    (he : yearRows st year = []) :
    calculateWeights scheme st year (some wd)
      = Except.error "ZeroDivisionError: float division by zero" := by
  simp only [List.mem_cons, List.not_mem_nil, or_false] at hs
  have hnorm : normalizeWeights [] =
      Except.error "ZeroDivisionError: float division by zero" := rfl
  rcases hs with rfl | rfl | rfl | rfl | rfl | rfl <;>
    simp only [calculateWeights, sampleRawWeights, valueRawWeights, unitRawWeights,
      upbRawWeights, demographicRawWeights, he, List.map_nil, hnorm] <;> rfl

/-- Instantiation of claim C9: a supertract table whose rows are all for
year 2001 gives an empty scope for year 2000. -/
theorem empty_scope_raises_zero_division_witness :
    "sample" ∈ ["sample", "value", "unit", "upb", "college", "non_white"] ∧
    yearRows [⟨"S1", 2001, "m", ["t1"], 3⟩] 2000 = [] ∧
    calculateWeights "sample" [⟨"S1", 2001, "m", ["t1"], 3⟩] 2000 (some [])
      = Except.error "ZeroDivisionError: float division by zero" :=
  ⟨by decide, by decide,
    empty_scope_raises_zero_division "sample" (by decide)
      [⟨"S1", 2001, "m", ["t1"], 3⟩] 2000 [] (by decide)⟩

/-- Claim C6: run_bmn_for_supertract never raises: a tract set matching
zero sales rows returns exactly (0, 0), and any failure of the regression
engine or of the coefficient lookup is converted to the same neutral
(0, 0); the engine's direct entry point run_regression, in contrast, fails
with a fatal error whenever it is given zero observations. -/
theorem run_bmn_for_supertract_total
    (fit : List (List Int) → List ℚ → Except String FitResult)
    (repeatSales : List Sale) (supertractTracts : List String) (year : Int) :
    (repeatSales.filter (fun s => decide (s.tract ∈ supertractTracts)) = [] →
      runBmnForSupertract fit repeatSales supertractTracts year = (0, 0)) ∧
    (∀ msg,
      bmnInner fit (repeatSales.filter (fun s => decide (s.tract ∈ supertractTracts)))
          year = Except.error msg →
      runBmnForSupertract fit repeatSales supertractTracts year = (0, 0)) ∧
    (∀ startYear? endYear? : Option Int,
      ∃ msg, runRegression fit [] startYear? endYear? = Except.error msg) := by
  refine ⟨?_, ?_, ?_⟩
  · intro h
    simp [runBmnForSupertract, h]
  · intro msg hmsg
    by_cases hf : repeatSales.filter (fun s => decide (s.tract ∈ supertractTracts)) = []
    · simp [runBmnForSupertract, hf]
    · have hlen : (repeatSales.filter
          (fun s => decide (s.tract ∈ supertractTracts))).length ≠ 0 := by
        simpa [List.length_eq_zero] using hf
      simp [runBmnForSupertract, hlen, hmsg]
  · intro startYear? endYear?
    rcases startYear? with _ | s <;> rcases endYear? with _ | e <;> exact ⟨_, rfl⟩

/-- Instantiation of claim C6: a single-sale table and a tract set that
matches none of it, under a fit that always succeeds with no parameters. -/
theorem run_bmn_for_supertract_total_witness :
    ([⟨"t", "m", 2000, 2001, 1⟩] : List Sale).filter
        (fun s => decide (s.tract ∈ (["x"] : List String))) = [] ∧
    runBmnForSupertract (fun _ _ => Except.ok ⟨[]⟩)
        [⟨"t", "m", 2000, 2001, 1⟩] ["x"] 2001 = (0, 0) := by
  have h := run_bmn_for_supertract_total (fun _ _ => Except.ok ⟨[]⟩)
      [⟨"t", "m", 2000, 2001, 1⟩] ["x"] 2001
  exact ⟨by decide, h.1 (by decide)⟩


/-- Claim C7: for every (metro, scheme) unit in scope, a failure of the
weight computation is caught and replaced by a record with appreciation
rate exactly 0 that still carries the unit's supertract count and total
observations, while processing of every other unit continues (every unit
contributes its record); a successful weighting contributes a record whose
rate is the weighted sum of the supertract appreciation rates under the
aligned weights. -/
theorem aggregator_degrades_weight_failure (stApp : List AppRow)
    (stDefs : List SupertractRow) (year : Int) (wd : Option (List WeightRow))
    (schemes : List String) (cbsaId : String)
    (hc : cbsaId ∈ uniqueKeep (stApp.map (fun r => r.cbsa)))
    (scheme : String) (hs : scheme ∈ schemes) :
    (∀ msg,
      schemeWeightedRate scheme
          (stDefs.filter (fun d => decide (d.cbsa = cbsaId ∧ d.year = year))) year wd
          (stApp.filter (fun r => decide (r.cbsa = cbsaId))) = Except.error msg →
      (⟨cbsaId, year, scheme, 0,
          (stApp.filter (fun r => decide (r.cbsa = cbsaId))).length,
          ((stApp.filter (fun r => decide (r.cbsa = cbsaId))).map
            (fun r => r.nObservations)).sum⟩ : CityResult)
        ∈ aggregateToCityLevel stApp stDefs year wd schemes) ∧
    (∀ rate,
      schemeWeightedRate scheme
          (stDefs.filter (fun d => decide (d.cbsa = cbsaId ∧ d.year = year))) year wd
          (stApp.filter (fun r => decide (r.cbsa = cbsaId))) = Except.ok rate →
      (⟨cbsaId, year, scheme, rate,
          (stApp.filter (fun r => decide (r.cbsa = cbsaId))).length,
          ((stApp.filter (fun r => decide (r.cbsa = cbsaId))).map
            (fun r => r.nObservations)).sum⟩ : CityResult)
        ∈ aggregateToCityLevel stApp stDefs year wd schemes) ∧
    (∀ w aligned,
      calculateWeights scheme
          (stDefs.filter (fun d => decide (d.cbsa = cbsaId ∧ d.year = year))) year wd
        = Except.ok w →
      alignWeights w ((stApp.filter (fun r => decide (r.cbsa = cbsaId))).map
          (fun r => r.supertractId)) = Except.ok aligned →
      schemeWeightedRate scheme
          (stDefs.filter (fun d => decide (d.cbsa = cbsaId ∧ d.year = year))) year wd
          (stApp.filter (fun r => decide (r.cbsa = cbsaId)))
        = Except.ok (((aligned.zip
            ((stApp.filter (fun r => decide (r.cbsa = cbsaId))).map
              (fun r => r.appreciationRate))).map (fun p => p.1 * p.2)).sum)) := by
  refine ⟨?_, ?_, ?_⟩
  · intro msg hmsg
    refine List.mem_flatMap.mpr ⟨cbsaId, hc, ?_⟩
    refine List.mem_map.mpr ⟨scheme, hs, ?_⟩
    simp only [hmsg]
  · intro rate hrate
    refine List.mem_flatMap.mpr ⟨cbsaId, hc, ?_⟩
    refine List.mem_map.mpr ⟨scheme, hs, ?_⟩
    simp only [hrate]
  · intro w aligned hw ha
    simp only [schemeWeightedRate, hw, ha]

/-- Instantiation of claim C7: the value scheme without a weighting table
fails, and the aggregator still emits a zero-appreciation record carrying
the unit's one supertract and five observations. -/
theorem aggregator_degrades_weight_failure_witness :
    "m1" ∈ uniqueKeep (([⟨"S1", "m1", 2, 5⟩] : List AppRow).map (fun r => r.cbsa)) ∧
    "value" ∈ ["value"] ∧
    (⟨"m1", 2000, "value", 0, 1, 5⟩ : CityResult) ∈
      aggregateToCityLevel [⟨"S1", "m1", 2, 5⟩] [⟨"S1", 2000, "m1", ["t"], 4⟩]
        2000 none ["value"] := by
  have h := aggregator_degrades_weight_failure [⟨"S1", "m1", 2, 5⟩]
      [⟨"S1", 2000, "m1", ["t"], 4⟩] 2000 none ["value"] "m1" (by decide)
      "value" (by decide)
  exact ⟨by decide, by decide,
    h.1 "weighting_data required for value weighting" rfl⟩


theorem insertByYear_perm (r : CityRow) (l : List CityRow) :
    (insertByYear r l).Perm (r :: l) := by
  induction l with
  | nil => exact List.Perm.refl _
  | cons x xs ih =>
    simp only [insertByYear]
    by_cases h : r.year ≤ x.year
    · rw [if_pos h]
    · rw [if_neg h]
      exact (List.Perm.cons x ih).trans (List.Perm.swap r x xs)

theorem sortByYear_perm (l : List CityRow) : (sortByYear l).Perm l := by
  induction l with
  | nil => exact List.Perm.refl _
  | cons x xs ih =>
    simp only [sortByYear]
    exact (insertByYear_perm x (sortByYear xs)).trans (List.Perm.cons x ih)

theorem insertByYear_sorted (r : CityRow) (l : List CityRow)
    (h : l.Pairwise (fun a b => a.year ≤ b.year)) :
    (insertByYear r l).Pairwise (fun a b => a.year ≤ b.year) := by
  induction l with
  | nil => simp [insertByYear]
  | cons x xs ih =>
    rcases List.pairwise_cons.mp h with ⟨hx, hxs⟩
    simp only [insertByYear]
    by_cases hr : r.year ≤ x.year
    · rw [if_pos hr]
      refine List.pairwise_cons.mpr ⟨?_, h⟩
      intro y hy
      rcases List.mem_cons.mp hy with rfl | hy2
      · exact hr
      · exact le_trans hr (hx y hy2)
    · rw [if_neg hr]
      refine List.pairwise_cons.mpr ⟨?_, ih hxs⟩
      intro y hy
      rcases List.mem_cons.mp ((insertByYear_perm r xs).mem_iff.mp hy) with rfl | hy2
      · exact le_of_not_le hr
      · exact hx y hy2

theorem sortByYear_sorted (l : List CityRow) :
    (sortByYear l).Pairwise (fun a b => a.year ≤ b.year) := by
  induction l with
  | nil => simp [sortByYear]
  | cons x xs ih =>
    exact insertByYear_sorted x (sortByYear xs) ih

theorem chainForward_length (expf : ℚ → ℚ) (v : ℚ) (rs : List ℚ) :
    (chainForward expf v rs).length = rs.length := by
  induction rs generalizing v with
  | nil => rfl
  | cons r rs ih => simp [chainForward, ih]

theorem chainBackward_length (expf : ℚ → ℚ) (v : ℚ) (rs : List ℚ) :
    (chainBackward expf v rs).length = rs.length := by
  induction rs generalizing v with
  | nil => rfl
  | cons r rs ih => simp [chainBackward, ih]

theorem chainForward_getD (expf : ℚ → ℚ) (v : ℚ) (rs : List ℚ) (j : Nat)
    (hj : j < rs.length) :
    (chainForward expf v rs).getD j 0 =
      (if j = 0 then v else (chainForward expf v rs).getD (j - 1) 0)
        * expf (rs.getD j 0) := by
  induction rs generalizing v j with
  | nil => simp at hj
  | cons r rs ih =>
    cases j with
    | zero => simp [chainForward]
    | succ j2 =>
      simp only [chainForward, List.getD_cons_succ, Nat.succ_ne_zero, if_false,
        Nat.add_sub_cancel]
      rw [ih (v * expf r) j2 (by simpa using hj)]
      cases j2 with
      | zero => simp
      | succ j3 => simp [List.getD_cons_succ]

theorem chainBackward_getD (expf : ℚ → ℚ) (v : ℚ) (L : List ℚ) (j : Nat)
    (hj : j < L.length) :
    (chainBackward expf v L).getD j 0 =
      (if j + 1 = L.length then v else (chainBackward expf v L).getD (j + 1) 0)
        / expf (L.getD (L.length - 1 - j) 0) := by
  induction L generalizing v j with
  | nil => simp at hj
  | cons r rs ih =>
    have h2 : (chainBackward expf (v / expf r) rs).length = rs.length :=
      chainBackward_length expf (v / expf r) rs
    simp only [chainBackward, List.length_cons]
    by_cases hlast : j = rs.length
    · subst hlast
      rw [List.getD_append_right _ _ _ _ (by omega), h2]
      simp
    · have hjlt : j < rs.length := by
        simp only [List.length_cons] at hj
        omega
      rw [List.getD_append _ _ _ _ (by omega)]
      rw [ih (v / expf r) j hjlt]
      have hidx : rs.length + 1 - 1 - j = (rs.length - 1 - j) + 1 := by omega
      rw [hidx, List.getD_cons_succ]
      by_cases hnext : j + 1 = rs.length
      · rw [if_pos hnext, if_neg (by omega)]
        rw [List.getD_append_right _ _ _ _ (by omega), h2, hnext]
        simp
      · rw [if_neg hnext, if_neg (by omega)]
        rw [List.getD_append _ _ _ _ (by omega)]


theorem getD_reverse (l : List ℚ) (i : Nat) (h : i < l.length) :
    l.reverse.getD i 0 = l.getD (l.length - 1 - i) 0 := by
  rw [List.getD_eq_getElem _ _ (by simpa using h),
    List.getD_eq_getElem _ _ (by omega), List.getElem_reverse]

theorem getD_drop (l : List ℚ) (m j : Nat) (h : m + j < l.length) :
    (l.drop m).getD j 0 = l.getD (m + j) 0 := by
  rw [List.getD_eq_getElem _ _ (by simp [List.length_drop]; omega),
    List.getD_eq_getElem _ _ h, List.getElem_drop]

theorem getD_take (l : List ℚ) (m j : Nat) (h1 : j < m) (h2 : j < l.length) :
    (l.take m).getD j 0 = l.getD j 0 := by
  rw [List.getD_eq_getElem _ _ (by simp [List.length_take]; omega),
    List.getD_eq_getElem _ _ h2, List.getElem_take]

/-- Core of the chaining computation for a series that holds the base
year: position k of the zipped output carries the base value, positions
after the base year position satisfy the forward identity and positions
before it the backward identity. -/
theorem chain_core (expf : ℚ → ℚ) (bv : ℚ) (years : List Int) (rates : List ℚ)
    (b : Int) (hmem : b ∈ years)
    (hsorted : years.Pairwise (fun a c => a ≤ c)) (hnodup : years.Nodup)
    (hlen : rates.length = years.length) :
    ∀ out, out = years.zip
        (((chainBackward expf bv
            (((rates.take (years.indexOf b + 1)).drop 1).reverse)
          ++ bv :: chainForward expf bv (rates.drop (years.indexOf b + 1))).zip rates)) →
      out.map (fun p => p.1) = years ∧
      out.length = years.length ∧
      (∃ k, k < out.length ∧ (out.getD k (0, 0, 0)).1 = b ∧
        (out.getD k (0, 0, 0)).2.1 = bv) ∧
      (∀ i, i < out.length → b < (out.getD i (0, 0, 0)).1 →
        (out.getD i (0, 0, 0)).2.1
          = (out.getD (i - 1) (0, 0, 0)).2.1 * expf ((out.getD i (0, 0, 0)).2.2)) ∧
      (∀ i, i < out.length → (out.getD i (0, 0, 0)).1 < b →
        (out.getD i (0, 0, 0)).2.1
          = (out.getD (i + 1) (0, 0, 0)).2.1 / expf ((out.getD (i + 1) (0, 0, 0)).2.2)) := by
  intro out hout
  set n := years.length with hn
  set k := years.indexOf b with hkdef
  have hk : k < n := List.indexOf_lt_length.mpr hmem
  set B := chainBackward expf bv (((rates.take (k + 1)).drop 1).reverse) with hB
  set Fw := chainForward expf bv (rates.drop (k + 1)) with hFw
  have hBlen : B.length = k := by
    rw [hB, chainBackward_length]
    simp only [List.length_reverse, List.length_drop, List.length_take]
    omega
  have hFwlen : Fw.length = n - (k + 1) := by
    rw [hFw, chainForward_length, List.length_drop, hlen]
  set vals := B ++ bv :: Fw with hvals
  have hvlen : vals.length = n := by
    rw [hvals]
    simp only [List.length_append, List.length_cons, hBlen, hFwlen]
    omega
  have holen : out.length = n := by
    rw [hout]
    simp only [List.length_zip, hvlen, hlen, hvals]
    omega
  -- component access
  have hcomp : ∀ i, i < n → out.getD i (0, 0, 0)
      = (years.getD i 0, vals.getD i 0, rates.getD i 0) := by
    intro i hi
    rw [hout]
    rw [List.getD_eq_getElem _ _ (by rw [← hout]; omega)]
    rw [List.getElem_zip, List.getElem_zip]
    rw [List.getD_eq_getElem _ _ (by omega), List.getD_eq_getElem _ _ (by omega),
      List.getD_eq_getElem _ _ (by rw [hlen]; omega)]
  -- year position facts
  have hyk : years.getD k 0 = b := by
    rw [List.getD_eq_getElem _ _ hk]
    exact List.getElem_indexOf hk
  have hmono : ∀ i j, i < j → j < n → years.getD i 0 < years.getD j 0 := by
    intro i j hij hj
    have hi : i < n := lt_trans hij hj
    rw [List.getD_eq_getElem _ _ hi, List.getD_eq_getElem _ _ hj]
    have hle := List.pairwise_iff_getElem.mp hsorted i j hi hj hij
    have hne : years[i] ≠ years[j] := by
      intro hEq
      exact absurd ((hnodup.getElem_inj_iff).mp hEq) (Nat.ne_of_lt hij)
    exact lt_of_le_of_ne hle hne
  have hgt : ∀ i, i < n → b < years.getD i 0 → k < i := by
    intro i hi hbi
    by_contra hne
    push_neg at hne
    rcases Nat.lt_or_ge i k with hik | hik
    · have := hmono i k hik hk
      omega
    · have hik2 : i = k := by omega
      rw [hik2, hyk] at hbi
      omega
  have hlt : ∀ i, i < n → years.getD i 0 < b → i < k := by
    intro i hi hib
    by_contra hne
    push_neg at hne
    rcases Nat.lt_or_ge k i with hki | hki
    · have := hmono k i hki hi
      omega
    · have hik2 : i = k := by omega
      rw [hik2, hyk] at hib
      omega
  -- value facts
  have hvk : vals.getD k 0 = bv := by
    rw [hvals, List.getD_append_right _ _ _ _ (by omega), hBlen]
    simp
  have hcons : ∀ (x : ℚ) (l : List ℚ) (m : Nat), 0 < m →
      (x :: l).getD m 0 = l.getD (m - 1) 0 := by
    intro x l m hm
    cases m with
    | zero => omega
    | succ m2 => simp [List.getD_cons_succ]
  have hvgt : ∀ i, k < i → i < n → vals.getD i 0
      = vals.getD (i - 1) 0 * expf (rates.getD i 0) := by
    intro i hki hi
    have hstep : vals.getD i 0 = Fw.getD (i - k - 1) 0 := by
      rw [hvals, List.getD_append_right _ _ _ _ (by omega), hBlen,
        hcons _ _ _ (by omega)]
    have hj : i - k - 1 < (rates.drop (k + 1)).length := by
      rw [List.length_drop, hlen]
      omega
    rw [hstep, hFw, chainForward_getD _ _ _ _ hj]
    rw [getD_drop _ _ _ (by rw [hlen]; omega)]
    have hidx : k + 1 + (i - k - 1) = i := by omega
    rw [hidx]
    by_cases hfirst : i = k + 1
    · rw [if_pos (by omega)]
      have : i - 1 = k := by omega
      rw [this, hvk]
    · rw [if_neg (by omega)]
      have hprev : vals.getD (i - 1) 0 = Fw.getD (i - k - 2) 0 := by
        rw [hvals, List.getD_append_right _ _ _ _ (by omega), hBlen,
          hcons _ _ _ (by omega)]
        congr 1
        omega
      rw [hprev]
      have : i - k - 1 - 1 = i - k - 2 := by omega
      rw [← hFw, this]
  have hvlt : ∀ i, i < k → vals.getD i 0
      = vals.getD (i + 1) 0 / expf (rates.getD (i + 1) 0) := by
    intro i hik
    have hstep : vals.getD i 0 = B.getD i 0 := by
      rw [hvals, List.getD_append _ _ _ _ (by omega)]
    have hLlen : (((rates.take (k + 1)).drop 1).reverse).length = k := by
      simp only [List.length_reverse, List.length_drop, List.length_take]
      omega
    rw [hstep, hB, chainBackward_getD _ _ _ _ (by rw [hLlen]; omega)]
    rw [hLlen]
    have hrev : (((rates.take (k + 1)).drop 1).reverse).getD (k - 1 - i) 0
        = rates.getD (i + 1) 0 := by
      rw [getD_reverse _ _ (by
        simp only [List.length_drop, List.length_take]
        omega)]
      simp only [List.length_drop, List.length_take]
      have hidx : (k + 1) ⊓ rates.length - 1 - 1 - (k - 1 - i) = i := by
        rw [hlen]
        omega
      rw [hidx]
      rw [getD_drop _ _ _ (by
        simp only [List.length_take]
        rw [hlen]
        omega)]
      rw [getD_take _ _ _ (by omega) (by rw [hlen]; omega)]
      congr 1
      omega
    rw [hrev, ← hB]
    by_cases hlast : i + 1 = k
    · rw [if_pos hlast]
      have : vals.getD (i + 1) 0 = bv := by
        rw [hlast, hvk]
      rw [this]
    · rw [if_neg hlast]
      have : vals.getD (i + 1) 0 = B.getD (i + 1) 0 := by
        rw [hvals, List.getD_append _ _ _ _ (by omega)]
      rw [this]
  -- conclusions
  refine ⟨?_, holen.trans hn.symm ▸ rfl, ?_, ?_, ?_⟩
  · rw [hout]
    exact List.map_fst_zip _ _ (by
      simp only [List.length_zip, hvlen, hlen, hvals]
      omega)
  · exact ⟨k, by omega, by rw [hcomp k hk]; exact hyk, by rw [hcomp k hk]; exact hvk⟩
  · intro i hi hbi
    have hin : i < n := by omega
    rw [hcomp i hin] at hbi ⊢
    have hki : k < i := hgt i hin hbi
    rw [hcomp (i - 1) (by omega)]
    exact hvgt i hki hin
  · intro i hi hib
    have hin : i < n := by omega
    rw [hcomp i hin] at hib ⊢
    have hik : i < k := hlt i hin hib
    rw [hcomp (i + 1) (by omega)]
    exact hvlt i hik


/-- Claim C4: chaining a per-year series of one (metro, scheme) whose year
set contains the configured base year b anchors the output exactly: the
output years are the series years in ascending order, the row of year b
carries exactly the configured base value, every row after the base year
satisfies index[t] = index[t-1] * exp(appreciation[t]), and every row
before the base year satisfies index[t] = index[t+1] / exp(appreciation[t+1]). -/
theorem chained_index_base_and_identities (expf : ℚ → ℚ) (st : ChainerState)
    (df : List CityRow) (cbsaId scheme : String) (b : Int)
    (hbase : st.baseYear = some b)
    (hmem : b ∈ (filteredSorted df cbsaId scheme).map (fun r => r.year))
    (hnodup : ((filteredSorted df cbsaId scheme).map (fun r => r.year)).Nodup) :
    (chainAppreciationRates expf st df cbsaId scheme).2.map (fun p => p.1)
      = (filteredSorted df cbsaId scheme).map (fun r => r.year) ∧
    (∃ k, k < (chainAppreciationRates expf st df cbsaId scheme).2.length ∧
      ((chainAppreciationRates expf st df cbsaId scheme).2.getD k (0, 0, 0)).1 = b ∧
      ((chainAppreciationRates expf st df cbsaId scheme).2.getD k (0, 0, 0)).2.1
        = st.baseValue) ∧
    (∀ i, i < (chainAppreciationRates expf st df cbsaId scheme).2.length →
      b < ((chainAppreciationRates expf st df cbsaId scheme).2.getD i (0, 0, 0)).1 →
      ((chainAppreciationRates expf st df cbsaId scheme).2.getD i (0, 0, 0)).2.1
        = ((chainAppreciationRates expf st df cbsaId scheme).2.getD (i - 1) (0, 0, 0)).2.1
          * expf (((chainAppreciationRates expf st df cbsaId scheme).2.getD i (0, 0, 0)).2.2)) ∧
    (∀ i, i < (chainAppreciationRates expf st df cbsaId scheme).2.length →
      ((chainAppreciationRates expf st df cbsaId scheme).2.getD i (0, 0, 0)).1 < b →
      ((chainAppreciationRates expf st df cbsaId scheme).2.getD i (0, 0, 0)).2.1
        = ((chainAppreciationRates expf st df cbsaId scheme).2.getD (i + 1) (0, 0, 0)).2.1
          / expf (((chainAppreciationRates expf st df cbsaId scheme).2.getD (i + 1) (0, 0, 0)).2.2)) := by
  have hFne : filteredSorted df cbsaId scheme ≠ [] := by
    intro h
    rw [h] at hmem
    simp at hmem
  have hEmp : (filteredSorted df cbsaId scheme).isEmpty = false := by
    cases hc : filteredSorted df cbsaId scheme with
    | nil => exact absurd hc hFne
    | cons a l => rfl
  have hout : (chainAppreciationRates expf st df cbsaId scheme).2
      = ((filteredSorted df cbsaId scheme).map (fun r => r.year)).zip
          (((chainBackward expf st.baseValue
              ((((filteredSorted df cbsaId scheme).map (fun r => r.appreciationRate)).take
                  (((filteredSorted df cbsaId scheme).map (fun r => r.year)).indexOf b + 1)).drop
                1).reverse)
            ++ st.baseValue :: chainForward expf st.baseValue
              (((filteredSorted df cbsaId scheme).map (fun r => r.appreciationRate)).drop
                (((filteredSorted df cbsaId scheme).map (fun r => r.year)).indexOf b + 1))).zip
            ((filteredSorted df cbsaId scheme).map (fun r => r.appreciationRate))) := by
    simp only [chainAppreciationRates, hbase, hEmp, Bool.false_eq_true, if_false,
      Option.getD_some]
    rw [if_pos hmem]
  have hsorted : ((filteredSorted df cbsaId scheme).map (fun r => r.year)).Pairwise
      (fun a c => a ≤ c) := by
    refine List.pairwise_map.mpr ?_
    exact sortByYear_sorted _
  obtain ⟨c1, c2, c3, c4, c5⟩ := chain_core expf st.baseValue
    ((filteredSorted df cbsaId scheme).map (fun r => r.year))
    ((filteredSorted df cbsaId scheme).map (fun r => r.appreciationRate))
    b hmem hsorted hnodup (by simp)
    ((chainAppreciationRates expf st df cbsaId scheme).2) hout
  exact ⟨c1, c3, c4, c5⟩


/-- Instantiation of claim C4 at a three-year series 2015..2017 anchored
at base year 2016, with a stand-in exp doubling each step. -/
theorem chained_index_base_and_identities_witness :
    (⟨100, some 2016⟩ : ChainerState).baseYear = some 2016 ∧
    (2016 : Int) ∈ (filteredSorted
      [⟨"m", "s", 2017, 3⟩, ⟨"m", "s", 2015, 1⟩, ⟨"m", "s", 2016, 2⟩] "m" "s").map
        (fun r => r.year) ∧
    (∃ k, k < (chainAppreciationRates (fun _ => 2) ⟨100, some 2016⟩
        [⟨"m", "s", 2017, 3⟩, ⟨"m", "s", 2015, 1⟩, ⟨"m", "s", 2016, 2⟩] "m" "s").2.length ∧
      ((chainAppreciationRates (fun _ => 2) ⟨100, some 2016⟩
        [⟨"m", "s", 2017, 3⟩, ⟨"m", "s", 2015, 1⟩, ⟨"m", "s", 2016, 2⟩] "m" "s").2.getD k
          (0, 0, 0)).1 = 2016 ∧
      ((chainAppreciationRates (fun _ => 2) ⟨100, some 2016⟩
        [⟨"m", "s", 2017, 3⟩, ⟨"m", "s", 2015, 1⟩, ⟨"m", "s", 2016, 2⟩] "m" "s").2.getD k
          (0, 0, 0)).2.1 = (⟨100, some 2016⟩ : ChainerState).baseValue) ∧
    ((chainAppreciationRates (fun _ => 2) ⟨100, some 2016⟩
        [⟨"m", "s", 2017, 3⟩, ⟨"m", "s", 2015, 1⟩, ⟨"m", "s", 2016, 2⟩] "m" "s").2.getD 2
          (0, 0, 0)).2.1
      = ((chainAppreciationRates (fun _ => 2) ⟨100, some 2016⟩
        [⟨"m", "s", 2017, 3⟩, ⟨"m", "s", 2015, 1⟩, ⟨"m", "s", 2016, 2⟩] "m" "s").2.getD 1
          (0, 0, 0)).2.1 * (fun _ => (2 : ℚ))
            (((chainAppreciationRates (fun _ => 2) ⟨100, some 2016⟩
        [⟨"m", "s", 2017, 3⟩, ⟨"m", "s", 2015, 1⟩, ⟨"m", "s", 2016, 2⟩] "m" "s").2.getD 2
          (0, 0, 0)).2.2) := by
  have h := chained_index_base_and_identities (fun _ => 2) ⟨100, some 2016⟩
    [⟨"m", "s", 2017, 3⟩, ⟨"m", "s", 2015, 1⟩, ⟨"m", "s", 2016, 2⟩] "m" "s" 2016
    rfl (by decide) (by decide)
  exact ⟨rfl, by decide, h.2.1, h.2.2.1 2 (by decide) (by decide)⟩


theorem mem_uniqueKeepAux {α : Type} [DecidableEq α] (l : List α) :
    ∀ (seen : List α) (a : α), a ∈ uniqueKeepAux seen l ↔ a ∈ l ∧ a ∉ seen := by
  induction l with
  | nil => intro seen a; simp [uniqueKeepAux]
  | cons x xs ih =>
    intro seen a
    simp only [uniqueKeepAux]
    by_cases hx : x ∈ seen
    · rw [if_pos hx, ih]
      constructor
      · rintro ⟨h1, h2⟩
        exact ⟨List.mem_cons_of_mem x h1, h2⟩
      · rintro ⟨h1, h2⟩
        rcases List.mem_cons.mp h1 with rfl | h3
        · exact absurd hx h2
        · exact ⟨h3, h2⟩
    · rw [if_neg hx]
      constructor
      · intro h
        rcases List.mem_cons.mp h with rfl | h2
        · exact ⟨List.mem_cons_self a xs, hx⟩
        · rcases (ih (x :: seen) a).mp h2 with ⟨h3, h4⟩
          refine ⟨List.mem_cons_of_mem x h3, fun h5 => h4 (List.mem_cons_of_mem x h5)⟩
      · rintro ⟨h1, h2⟩
        rcases List.mem_cons.mp h1 with rfl | h3
        · exact List.mem_cons_self a _
        · by_cases hax : a = x
          · subst hax
            exact List.mem_cons_self a _
          · refine List.mem_cons_of_mem x ((ih (x :: seen) a).mpr ⟨h3, ?_⟩)
            intro h5
            rcases List.mem_cons.mp h5 with h6 | h6
            · exact hax h6
            · exact h2 h6

theorem mem_uniqueKeep {α : Type} [DecidableEq α] (l : List α) (a : α) :
    a ∈ uniqueKeep l ↔ a ∈ l := by
  rw [uniqueKeep, mem_uniqueKeepAux]
  simp

theorem insertPair_perm (p : String × String) (l : List (String × String)) :
    (insertPair p l).Perm (p :: l) := by
  induction l with
  | nil => exact List.Perm.refl _
  | cons x xs ih =>
    simp only [insertPair]
    by_cases h : pairLe p x
    · rw [if_pos h]
    · rw [if_neg h]
      exact (List.Perm.cons x ih).trans (List.Perm.swap p x xs)

theorem sortPairs_perm (l : List (String × String)) : (sortPairs l).Perm l := by
  induction l with
  | nil => exact List.Perm.refl _
  | cons x xs ih =>
    simp only [sortPairs]
    exact (insertPair_perm x (sortPairs xs)).trans (List.Perm.cons x ih)

/-- Once the chainer's base year is set, chaining leaves the state
untouched. -/
theorem chainApp_state_some (expf : ℚ → ℚ) (st : ChainerState) (df : List CityRow)
    (cbsaId scheme : String) (y : Int) (h : st.baseYear = some y) :
    (chainAppreciationRates expf st df cbsaId scheme).1 = st := by
  cases hEmp : (filteredSorted df cbsaId scheme).isEmpty <;>
    simp [chainAppreciationRates, h, hEmp]

/-- Reduction of the chaining output when the base year is stored and
present in the series. -/
theorem chainApp_red_mem (expf : ℚ → ℚ) (st : ChainerState) (df : List CityRow)
    (cbsaId scheme : String) (y : Int) (h : st.baseYear = some y)
    (hEmp : (filteredSorted df cbsaId scheme).isEmpty = false)
    (hmem : y ∈ (filteredSorted df cbsaId scheme).map (fun r => r.year)) :
    (chainAppreciationRates expf st df cbsaId scheme).2
      = ((filteredSorted df cbsaId scheme).map (fun r => r.year)).zip
          (((chainBackward expf st.baseValue
              ((((filteredSorted df cbsaId scheme).map (fun r => r.appreciationRate)).take
                  (((filteredSorted df cbsaId scheme).map (fun r => r.year)).indexOf y + 1)).drop
                1).reverse)
            ++ st.baseValue :: chainForward expf st.baseValue
              (((filteredSorted df cbsaId scheme).map (fun r => r.appreciationRate)).drop
                (((filteredSorted df cbsaId scheme).map (fun r => r.year)).indexOf y + 1))).zip
            ((filteredSorted df cbsaId scheme).map (fun r => r.appreciationRate))) := by
  simp only [chainAppreciationRates, h, hEmp, Bool.false_eq_true, if_false,
    Option.getD_some]
  rw [if_pos hmem]

/-- Reduction of the chaining output when the stored base year is absent
from the series. -/
theorem chainApp_red_notmem (expf : ℚ → ℚ) (st : ChainerState) (df : List CityRow)
    (cbsaId scheme : String) (y : Int) (h : st.baseYear = some y)
    (hEmp : (filteredSorted df cbsaId scheme).isEmpty = false)
    (hmem : y ∉ (filteredSorted df cbsaId scheme).map (fun r => r.year)) :
    (chainAppreciationRates expf st df cbsaId scheme).2
      = ((filteredSorted df cbsaId scheme).map (fun r => r.year)).zip
          ((st.baseValue :: chainForward expf st.baseValue
              (((filteredSorted df cbsaId scheme).map (fun r => r.appreciationRate)).drop
                1)).zip
            ((filteredSorted df cbsaId scheme).map (fun r => r.appreciationRate))) := by
  simp only [chainAppreciationRates, h, hEmp, Bool.false_eq_true, if_false,
    Option.getD_some]
  rw [if_neg hmem]


/-- The zipped chaining output of a series that holds the base year
carries the base value at the base-year position. -/
theorem zip_anchor (expf : ℚ → ℚ) (bv : ℚ) (years : List Int) (rates : List ℚ)
    (b : Int) (hmem : b ∈ years) (hlen : rates.length = years.length) :
    ∀ out, out = years.zip
        (((chainBackward expf bv (((rates.take (years.indexOf b + 1)).drop 1).reverse)
          ++ bv :: chainForward expf bv (rates.drop (years.indexOf b + 1))).zip rates)) →
      ∃ i, i < out.length ∧ (out.getD i (0, 0, 0)).1 = b ∧
        (out.getD i (0, 0, 0)).2.1 = bv := by
  intro out hout
  set n := years.length with hn
  set k := years.indexOf b with hkdef
  have hk : k < n := List.indexOf_lt_length.mpr hmem
  set B := chainBackward expf bv (((rates.take (k + 1)).drop 1).reverse) with hB
  set Fw := chainForward expf bv (rates.drop (k + 1)) with hFw
  have hBlen : B.length = k := by
    rw [hB, chainBackward_length]
    simp only [List.length_reverse, List.length_drop, List.length_take]
    omega
  have hFwlen : Fw.length = n - (k + 1) := by
    rw [hFw, chainForward_length, List.length_drop, hlen]
  have hvlen : (B ++ bv :: Fw).length = n := by
    simp only [List.length_append, List.length_cons, hBlen, hFwlen]
    omega
  have holen : out.length = n := by
    rw [hout]
    simp only [List.length_zip, hvlen, hlen]
    omega
  refine ⟨k, by omega, ?_, ?_⟩
  · rw [hout, List.getD_eq_getElem _ _ (by rw [← hout]; omega), List.getElem_zip]
    exact List.getElem_indexOf (by omega)
  · rw [hout, List.getD_eq_getElem _ _ (by rw [← hout]; omega), List.getElem_zip,
      List.getElem_zip]
    show (B ++ bv :: Fw)[k] = bv
    rw [← List.getD_eq_getElem _ 0 (by omega),
      List.getD_append_right _ _ _ _ (by omega), hBlen]
    simp

/-- Once the base year is stored, every non-empty chained series is
anchored at the stored year when that year occurs in it, and at its own
first row otherwise. -/
theorem chainApp_anchor_some (expf : ℚ → ℚ) (st : ChainerState) (df : List CityRow)
    (cbsaId scheme : String) (y : Int) (h : st.baseYear = some y)
    (hne : (chainAppreciationRates expf st df cbsaId scheme).2 ≠ []) :
    (y ∈ (chainAppreciationRates expf st df cbsaId scheme).2.map (fun p => p.1) →
      ∃ i, i < (chainAppreciationRates expf st df cbsaId scheme).2.length ∧
        ((chainAppreciationRates expf st df cbsaId scheme).2.getD i (0, 0, 0)).1 = y ∧
        ((chainAppreciationRates expf st df cbsaId scheme).2.getD i (0, 0, 0)).2.1
          = st.baseValue) ∧
    (y ∉ (chainAppreciationRates expf st df cbsaId scheme).2.map (fun p => p.1) →
      ((chainAppreciationRates expf st df cbsaId scheme).2.getD 0 (0, 0, 0)).2.1
        = st.baseValue) := by
  cases hEmp : (filteredSorted df cbsaId scheme).isEmpty
  case true =>
    have : (chainAppreciationRates expf st df cbsaId scheme).2 = [] := by
      simp [chainAppreciationRates, hEmp]
    exact absurd this hne
  case false =>
    have hFne : filteredSorted df cbsaId scheme ≠ [] := by
      intro hc
      rw [hc] at hEmp
      simp at hEmp
    obtain ⟨f0, fs, hF⟩ : ∃ f0 fs, filteredSorted df cbsaId scheme = f0 :: fs := by
      cases hc : filteredSorted df cbsaId scheme with
      | nil => exact absurd hc hFne
      | cons a l => exact ⟨a, l, rfl⟩
    by_cases hmem : y ∈ (filteredSorted df cbsaId scheme).map (fun r => r.year)
    · have hout := chainApp_red_mem expf st df cbsaId scheme y h hEmp hmem
      have hmap : (chainAppreciationRates expf st df cbsaId scheme).2.map
          (fun p => p.1) = (filteredSorted df cbsaId scheme).map (fun r => r.year) := by
        rw [hout]
        refine List.map_fst_zip _ _ ?_
        have hk : ((filteredSorted df cbsaId scheme).map (fun r => r.year)).indexOf y
            < ((filteredSorted df cbsaId scheme).map (fun r => r.year)).length :=
          List.indexOf_lt_length.mpr hmem
        simp only [List.length_zip, List.length_append, List.length_cons,
          chainBackward_length, chainForward_length, List.length_reverse,
          List.length_drop, List.length_take, List.length_map] at hk ⊢
        omega
      constructor
      · intro _
        exact zip_anchor expf st.baseValue
          ((filteredSorted df cbsaId scheme).map (fun r => r.year))
          ((filteredSorted df cbsaId scheme).map (fun r => r.appreciationRate))
          y hmem (by simp) _ hout
      · intro h2
        rw [hmap] at h2
        exact absurd hmem h2
    · have hout := chainApp_red_notmem expf st df cbsaId scheme y h hEmp hmem
      have hmap : (chainAppreciationRates expf st df cbsaId scheme).2.map
          (fun p => p.1) = (filteredSorted df cbsaId scheme).map (fun r => r.year) := by
        rw [hout]
        refine List.map_fst_zip _ _ ?_
        simp only [List.length_zip, List.length_cons, chainForward_length,
          List.length_drop, List.length_map, hF, List.length_cons]
        omega
      constructor
      · intro h2
        rw [hmap] at h2
        exact absurd h2 hmem
      · intro _
        rw [hout, hF]
        simp only [List.map_cons, List.drop_succ_cons, List.drop_zero,
          List.zip_cons_cons, List.getD_cons_zero]

/-- A chaining call on a chainer with no stored base year and a non-empty
series stores the series' first year as the base year and anchors that
series at its first year. -/
theorem chainApp_none_sets_base (expf : ℚ → ℚ) (st : ChainerState)
    (df : List CityRow) (cbsaId scheme : String) (h : st.baseYear = none)
    (hFne : filteredSorted df cbsaId scheme ≠ []) :
    (chainAppreciationRates expf st df cbsaId scheme).1
      = ⟨st.baseValue,
          some (((filteredSorted df cbsaId scheme).map (fun r => r.year)).headD 0)⟩ ∧
    (chainAppreciationRates expf st df cbsaId scheme).2 ≠ [] ∧
    (∃ i, i < (chainAppreciationRates expf st df cbsaId scheme).2.length ∧
      ((chainAppreciationRates expf st df cbsaId scheme).2.getD i (0, 0, 0)).1
        = ((filteredSorted df cbsaId scheme).map (fun r => r.year)).headD 0 ∧
      ((chainAppreciationRates expf st df cbsaId scheme).2.getD i (0, 0, 0)).2.1
        = st.baseValue) := by
  obtain ⟨f0, fs, hF⟩ : ∃ f0 fs, filteredSorted df cbsaId scheme = f0 :: fs := by
    cases hc : filteredSorted df cbsaId scheme with
    | nil => exact absurd hc hFne
    | cons a l => exact ⟨a, l, rfl⟩
  have hEmp : (filteredSorted df cbsaId scheme).isEmpty = false := by
    rw [hF]
    rfl
  have hmem : ((filteredSorted df cbsaId scheme).map (fun r => r.year)).headD 0
      ∈ (filteredSorted df cbsaId scheme).map (fun r => r.year) := by
    rw [hF]
    simp
  have hred : chainAppreciationRates expf st df cbsaId scheme
      = (⟨st.baseValue,
            some (((filteredSorted df cbsaId scheme).map (fun r => r.year)).headD 0)⟩,
         ((filteredSorted df cbsaId scheme).map (fun r => r.year)).zip
          (((chainBackward expf st.baseValue
              ((((filteredSorted df cbsaId scheme).map (fun r => r.appreciationRate)).take
                  (((filteredSorted df cbsaId scheme).map (fun r => r.year)).indexOf
                    (((filteredSorted df cbsaId scheme).map (fun r => r.year)).headD 0) + 1)).drop
                1).reverse)
            ++ st.baseValue :: chainForward expf st.baseValue
              (((filteredSorted df cbsaId scheme).map (fun r => r.appreciationRate)).drop
                (((filteredSorted df cbsaId scheme).map (fun r => r.year)).indexOf
                  (((filteredSorted df cbsaId scheme).map (fun r => r.year)).headD 0) + 1))).zip
            ((filteredSorted df cbsaId scheme).map (fun r => r.appreciationRate)))) := by
    simp only [chainAppreciationRates, h, hEmp, Bool.false_eq_true, if_false,
      Option.getD_some]
    rw [if_pos hmem]
  refine ⟨by rw [hred], ?_, ?_⟩
  · rw [hred, hF]
    simp only [List.map_cons]
    have hk0 : (f0.year :: fs.map (fun r => r.year)).indexOf
        ((f0.year :: fs.map (fun r => r.year)).headD 0) = 0 := by
      simp [List.indexOf_cons_self]
    intro hcon
    have := congrArg List.length hcon
    simp only [List.length_zip, List.length_cons, List.length_append,
      chainBackward_length, chainForward_length, List.length_reverse,
      List.length_drop, List.length_take, List.length_map, List.length_nil] at this
    omega
  · exact zip_anchor expf st.baseValue
      ((filteredSorted df cbsaId scheme).map (fun r => r.year))
      ((filteredSorted df cbsaId scheme).map (fun r => r.appreciationRate))
      (((filteredSorted df cbsaId scheme).map (fun r => r.year)).headD 0)
      hmem (by simp) (chainAppreciationRates expf st df cbsaId scheme).2
      (by rw [hred])


/-- Folding the chain over further combinations once the base year is
stored: the state never changes again, and every emitted series is
anchored at the stored year (or, failing that, at its own first row). -/
theorem chainAll_fold_some (expf : ℚ → ℚ) (df : List CityRow) (y : Int) :
    ∀ (combos : List (String × String)) (st : ChainerState)
      (acc : List ((String × String) × List (Int × ℚ × ℚ))),
      st.baseYear = some y →
      (combos.foldl
          (fun acc2 combo =>
            let res := chainAppreciationRates expf acc2.1 df combo.1 combo.2
            (res.1, if res.2.isEmpty then acc2.2 else acc2.2 ++ [(combo, res.2)]))
          (st, acc)).1 = st ∧
      ∀ pr ∈ (combos.foldl
          (fun acc2 combo =>
            let res := chainAppreciationRates expf acc2.1 df combo.1 combo.2
            (res.1, if res.2.isEmpty then acc2.2 else acc2.2 ++ [(combo, res.2)]))
          (st, acc)).2,
        pr ∈ acc ∨
        (pr.2 ≠ [] ∧
         (y ∈ pr.2.map (fun p => p.1) →
           ∃ i, i < pr.2.length ∧ (pr.2.getD i (0, 0, 0)).1 = y ∧
             (pr.2.getD i (0, 0, 0)).2.1 = st.baseValue) ∧
         (y ∉ pr.2.map (fun p => p.1) →
           (pr.2.getD 0 (0, 0, 0)).2.1 = st.baseValue)) := by
  intro combos
  induction combos with
  | nil =>
    intro st acc h
    exact ⟨rfl, fun pr hpr => Or.inl hpr⟩
  | cons c cs ih =>
    intro st acc h
    rw [List.foldl_cons]
    have hst : (chainAppreciationRates expf st df c.1 c.2).1 = st :=
      chainApp_state_some expf st df c.1 c.2 y h
    simp only [hst]
    rcases ih st (if (chainAppreciationRates expf st df c.1 c.2).2.isEmpty then acc
        else acc ++ [(c, (chainAppreciationRates expf st df c.1 c.2).2)]) h with ⟨ih1, ih2⟩
    refine ⟨ih1, ?_⟩
    intro pr hpr
    rcases ih2 pr hpr with hin | hprop
    · by_cases hEmp : (chainAppreciationRates expf st df c.1 c.2).2.isEmpty = true
      · rw [if_pos hEmp] at hin
        exact Or.inl hin
      · rw [if_neg hEmp] at hin
        rcases List.mem_append.mp hin with hin2 | hin3
        · exact Or.inl hin2
        · have hpr2 : pr = (c, (chainAppreciationRates expf st df c.1 c.2).2) := by
            simpa using hin3
          have hne : (chainAppreciationRates expf st df c.1 c.2).2 ≠ [] := by
            intro hl
            exact hEmp (by rw [hl]; rfl)
          obtain ⟨ha1, ha2⟩ := chainApp_anchor_some expf st df c.1 c.2 y h hne
          right
          rw [hpr2]
          exact ⟨hne, ha1, ha2⟩
    · exact Or.inr hprop

/-- Claim C10: constructed with no base year, the chainer permanently
adopts the first chained series' first year: after a chain_all_indices
batch call the stored base year is the first (in groupby key order)
combination's first year y0, and every emitted (metro, scheme) series is
anchored at y0 — it carries the configured base value at year y0 when y0
occurs in it, and only when y0 is absent from its year set does it fall
back to carrying the base value at its own first year. -/
theorem chain_all_first_series_sets_base_year (expf : ℚ → ℚ) (st : ChainerState)
    (df : List CityRow) (hnone : st.baseYear = none) (hdf : df ≠ []) :
    (chainAllIndices expf st df).1.baseYear
      = some (((filteredSorted df ((combosOf df).headD ("", "")).1
          ((combosOf df).headD ("", "")).2).map (fun r => r.year)).headD 0) ∧
    ∀ pr ∈ (chainAllIndices expf st df).2,
      pr.2 ≠ [] ∧
      ((((filteredSorted df ((combosOf df).headD ("", "")).1
            ((combosOf df).headD ("", "")).2).map (fun r => r.year)).headD 0)
          ∈ pr.2.map (fun p => p.1) →
        ∃ i, i < pr.2.length ∧
          (pr.2.getD i (0, 0, 0)).1
            = (((filteredSorted df ((combosOf df).headD ("", "")).1
                ((combosOf df).headD ("", "")).2).map (fun r => r.year)).headD 0) ∧
          (pr.2.getD i (0, 0, 0)).2.1 = st.baseValue) ∧
      ((((filteredSorted df ((combosOf df).headD ("", "")).1
            ((combosOf df).headD ("", "")).2).map (fun r => r.year)).headD 0)
          ∉ pr.2.map (fun p => p.1) →
        (pr.2.getD 0 (0, 0, 0)).2.1 = st.baseValue) := by
  obtain ⟨d, hd⟩ : ∃ d, d ∈ df := by
    cases df with
    | nil => exact absurd rfl hdf
    | cons a l => exact ⟨a, List.mem_cons_self a l⟩
  have hcne : combosOf df ≠ [] := by
    refine List.ne_nil_of_mem (a := (d.cbsa, d.weightingScheme)) ?_
    rw [combosOf]
    refine (sortPairs_perm _).mem_iff.mpr ?_
    rw [mem_uniqueKeep]
    exact List.mem_map_of_mem _ hd
  obtain ⟨c0, rest, hcombos⟩ := List.exists_cons_of_ne_nil hcne
  have hc0 : c0 ∈ combosOf df := by
    rw [hcombos]
    exact List.mem_cons_self c0 rest
  obtain ⟨r, hr, hrc⟩ : ∃ r ∈ df, (r.cbsa, r.weightingScheme) = c0 := by
    have h2 := (sortPairs_perm _).mem_iff.mp (by rw [combosOf] at hc0; exact hc0)
    rw [mem_uniqueKeep] at h2
    exact List.mem_map.mp h2
  have hr1 : r.cbsa = c0.1 := by rw [← hrc]
  have hr2 : r.weightingScheme = c0.2 := by rw [← hrc]
  have hf0ne : filteredSorted df c0.1 c0.2 ≠ [] := by
    refine List.ne_nil_of_mem (a := r) ?_
    rw [filteredSorted]
    refine (sortByYear_perm _).mem_iff.mpr ?_
    refine List.mem_filter.mpr ⟨hr, ?_⟩
    simp [hr1, hr2]
  obtain ⟨hd1, hd2, hd3⟩ := chainApp_none_sets_base expf st df c0.1 c0.2 hnone hf0ne
  have hEmpF : (chainAppreciationRates expf st df c0.1 c0.2).2.isEmpty = false := by
    cases hc : (chainAppreciationRates expf st df c0.1 c0.2).2 with
    | nil => exact absurd hc hd2
    | cons a l => rfl
  have hredAll : chainAllIndices expf st df
      = rest.foldl
          (fun acc2 combo =>
            let res := chainAppreciationRates expf acc2.1 df combo.1 combo.2
            (res.1, if res.2.isEmpty then acc2.2 else acc2.2 ++ [(combo, res.2)]))
          (⟨st.baseValue,
            some (((filteredSorted df c0.1 c0.2).map (fun r => r.year)).headD 0)⟩,
           [(c0, (chainAppreciationRates expf st df c0.1 c0.2).2)]) := by
    rw [chainAllIndices, hcombos, List.foldl_cons]
    congr 1
    simp only [hd1, hEmpF, Bool.false_eq_true, if_false, List.nil_append]
  obtain ⟨hf1, hf2⟩ := chainAll_fold_some expf df
    (((filteredSorted df c0.1 c0.2).map (fun r => r.year)).headD 0) rest
    ⟨st.baseValue, some (((filteredSorted df c0.1 c0.2).map (fun r => r.year)).headD 0)⟩
    [(c0, (chainAppreciationRates expf st df c0.1 c0.2).2)] rfl
  have hhead : (combosOf df).headD ("", "") = c0 := by
    rw [hcombos]
    rfl
  rw [hhead, hredAll]
  refine ⟨by rw [hf1], ?_⟩
  intro pr hpr
  rcases hf2 pr hpr with hin | hprop
  · have hpr2 : pr = (c0, (chainAppreciationRates expf st df c0.1 c0.2).2) := by
      simpa using hin
    rw [hpr2]
    refine ⟨hd2, fun _ => hd3, ?_⟩
    intro hnot
    exfalso
    obtain ⟨i, hi, hy, _⟩ := hd3
    refine hnot ?_
    rw [← hy, List.getD_eq_getElem _ _ hi]
    exact List.mem_map_of_mem _ (List.getElem_mem hi)
  · exact hprop


/-- Instantiation of claim C10: two metros m and n sharing scheme s, with
no configured base year; after the batch call the chainer's stored base
year is metro m's first year 2015 (metro m being the first groupby key),
not metro n's first year 2016. -/
theorem chain_all_first_series_sets_base_year_witness :
    (⟨100, none⟩ : ChainerState).baseYear = none ∧
    ([⟨"m", "s", 2017, 3⟩, ⟨"m", "s", 2015, 1⟩, ⟨"n", "s", 2016, 2⟩,
        ⟨"n", "s", 2017, 5⟩] : List CityRow) ≠ [] ∧
    (chainAllIndices (fun _ => 2) ⟨100, none⟩
        [⟨"m", "s", 2017, 3⟩, ⟨"m", "s", 2015, 1⟩, ⟨"n", "s", 2016, 2⟩,
          ⟨"n", "s", 2017, 5⟩]).1.baseYear = some 2015 := by
  have h := chain_all_first_series_sets_base_year (fun _ => 2) ⟨100, none⟩
    [⟨"m", "s", 2017, 3⟩, ⟨"m", "s", 2015, 1⟩, ⟨"n", "s", 2016, 2⟩,
      ⟨"n", "s", 2017, 5⟩] rfl (by decide)
  exact ⟨rfl, by decide, h.1.trans (by decide)⟩


/-- Claim C8: get_nearest_neighbor inspects only the min(n, 20) nearest
candidates, so on this 21-tract metro, where the query tract q's 20
nearest rows are q itself and the 19 excluded tracts e01..e19, the query
fails with the no-valid-neighbor error even though the non-excluded tract
v1 exists farther away. -/
theorem nearest_neighbor_bounded_search_fails_despite_valid_tract :
    20 < geo21.length ∧
    getNearestNeighbor geo21 "q" excl19 = Except.error "No valid neighbor found" ∧
    (⟨"v1", "m", 0, 100⟩ : GeoRow) ∈ geo21 ∧ "v1" ∉ excl19 ∧ "v1" ≠ "q" := by
  refine ⟨by decide, ?_, by decide, by decide, by decide⟩
  have htr : tractIdx geo21 "q" = some 0 := by decide
  have hq : geo21.getD 0 geoDefault = ⟨"q", "m", 0, 0⟩ := rfl
  have henum : enumRows 0 geo21 = [(0, ⟨"q", "m", 0, 0⟩),
      (1, ⟨"e01", "m", 0, 1⟩),
      (2, ⟨"e02", "m", 0, 2⟩),
      (3, ⟨"e03", "m", 0, 3⟩),
      (4, ⟨"e04", "m", 0, 4⟩),
      (5, ⟨"e05", "m", 0, 5⟩),
      (6, ⟨"e06", "m", 0, 6⟩),
      (7, ⟨"e07", "m", 0, 7⟩),
      (8, ⟨"e08", "m", 0, 8⟩),
      (9, ⟨"e09", "m", 0, 9⟩),
      (10, ⟨"e10", "m", 0, 10⟩),
      (11, ⟨"e11", "m", 0, 11⟩),
      (12, ⟨"e12", "m", 0, 12⟩),
      (13, ⟨"e13", "m", 0, 13⟩),
      (14, ⟨"e14", "m", 0, 14⟩),
      (15, ⟨"e15", "m", 0, 15⟩),
      (16, ⟨"e16", "m", 0, 16⟩),
      (17, ⟨"e17", "m", 0, 17⟩),
      (18, ⟨"e18", "m", 0, 18⟩),
      (19, ⟨"e19", "m", 0, 19⟩),
      (20, ⟨"v1", "m", 0, 100⟩)] := rfl
  have i20 : insertRowBy (fun p => sqDistDeg 0 0 p.2.lat p.2.lon)
      (20, ⟨"v1", "m", 0, 100⟩) [] = [(20, ⟨"v1", "m", 0, 100⟩)] := rfl
  have i19 : insertRowBy (fun p => sqDistDeg 0 0 p.2.lat p.2.lon)
      (19, ⟨"e19", "m", 0, 19⟩)
      [(20, ⟨"v1", "m", 0, 100⟩)]
      = [(19, ⟨"e19", "m", 0, 19⟩), (20, ⟨"v1", "m", 0, 100⟩)] := by
    simp only [insertRowBy]
    rw [if_pos (by norm_num [sqDistDeg])]
  have i18 : insertRowBy (fun p => sqDistDeg 0 0 p.2.lat p.2.lon)
      (18, ⟨"e18", "m", 0, 18⟩)
      [(19, ⟨"e19", "m", 0, 19⟩), (20, ⟨"v1", "m", 0, 100⟩)]
      = [(18, ⟨"e18", "m", 0, 18⟩), (19, ⟨"e19", "m", 0, 19⟩), (20, ⟨"v1", "m", 0, 100⟩)] := by
    simp only [insertRowBy]
    rw [if_pos (by norm_num [sqDistDeg])]
  have i17 : insertRowBy (fun p => sqDistDeg 0 0 p.2.lat p.2.lon)
      (17, ⟨"e17", "m", 0, 17⟩)
      [(18, ⟨"e18", "m", 0, 18⟩), (19, ⟨"e19", "m", 0, 19⟩), (20, ⟨"v1", "m", 0, 100⟩)]
      = [(17, ⟨"e17", "m", 0, 17⟩), (18, ⟨"e18", "m", 0, 18⟩), (19, ⟨"e19", "m", 0, 19⟩), (20, ⟨"v1", "m", 0, 100⟩)] := by
    simp only [insertRowBy]
    rw [if_pos (by norm_num [sqDistDeg])]
  have i16 : insertRowBy (fun p => sqDistDeg 0 0 p.2.lat p.2.lon)
      (16, ⟨"e16", "m", 0, 16⟩)
      [(17, ⟨"e17", "m", 0, 17⟩), (18, ⟨"e18", "m", 0, 18⟩), (19, ⟨"e19", "m", 0, 19⟩), (20, ⟨"v1", "m", 0, 100⟩)]
      = [(16, ⟨"e16", "m", 0, 16⟩), (17, ⟨"e17", "m", 0, 17⟩), (18, ⟨"e18", "m", 0, 18⟩), (19, ⟨"e19", "m", 0, 19⟩), (20, ⟨"v1", "m", 0, 100⟩)] := by
    simp only [insertRowBy]
    rw [if_pos (by norm_num [sqDistDeg])]
  have i15 : insertRowBy (fun p => sqDistDeg 0 0 p.2.lat p.2.lon)
      (15, ⟨"e15", "m", 0, 15⟩)
      [(16, ⟨"e16", "m", 0, 16⟩), (17, ⟨"e17", "m", 0, 17⟩), (18, ⟨"e18", "m", 0, 18⟩), (19, ⟨"e19", "m", 0, 19⟩), (20, ⟨"v1", "m", 0, 100⟩)]
      = [(15, ⟨"e15", "m", 0, 15⟩), (16, ⟨"e16", "m", 0, 16⟩), (17, ⟨"e17", "m", 0, 17⟩), (18, ⟨"e18", "m", 0, 18⟩), (19, ⟨"e19", "m", 0, 19⟩), (20, ⟨"v1", "m", 0, 100⟩)] := by
    simp only [insertRowBy]
    rw [if_pos (by norm_num [sqDistDeg])]
  have i14 : insertRowBy (fun p => sqDistDeg 0 0 p.2.lat p.2.lon)
      (14, ⟨"e14", "m", 0, 14⟩)
      [(15, ⟨"e15", "m", 0, 15⟩), (16, ⟨"e16", "m", 0, 16⟩), (17, ⟨"e17", "m", 0, 17⟩), (18, ⟨"e18", "m", 0, 18⟩), (19, ⟨"e19", "m", 0, 19⟩), (20, ⟨"v1", "m", 0, 100⟩)]
      = [(14, ⟨"e14", "m", 0, 14⟩), (15, ⟨"e15", "m", 0, 15⟩), (16, ⟨"e16", "m", 0, 16⟩), (17, ⟨"e17", "m", 0, 17⟩), (18, ⟨"e18", "m", 0, 18⟩), (19, ⟨"e19", "m", 0, 19⟩), (20, ⟨"v1", "m", 0, 100⟩)] := by
    simp only [insertRowBy]
    rw [if_pos (by norm_num [sqDistDeg])]
  have i13 : insertRowBy (fun p => sqDistDeg 0 0 p.2.lat p.2.lon)
      (13, ⟨"e13", "m", 0, 13⟩)
      [(14, ⟨"e14", "m", 0, 14⟩), (15, ⟨"e15", "m", 0, 15⟩), (16, ⟨"e16", "m", 0, 16⟩), (17, ⟨"e17", "m", 0, 17⟩), (18, ⟨"e18", "m", 0, 18⟩), (19, ⟨"e19", "m", 0, 19⟩), (20, ⟨"v1", "m", 0, 100⟩)]
      = [(13, ⟨"e13", "m", 0, 13⟩), (14, ⟨"e14", "m", 0, 14⟩), (15, ⟨"e15", "m", 0, 15⟩), (16, ⟨"e16", "m", 0, 16⟩), (17, ⟨"e17", "m", 0, 17⟩), (18, ⟨"e18", "m", 0, 18⟩), (19, ⟨"e19", "m", 0, 19⟩), (20, ⟨"v1", "m", 0, 100⟩)] := by
    simp only [insertRowBy]
    rw [if_pos (by norm_num [sqDistDeg])]
  have i12 : insertRowBy (fun p => sqDistDeg 0 0 p.2.lat p.2.lon)
      (12, ⟨"e12", "m", 0, 12⟩)
      [(13, ⟨"e13", "m", 0, 13⟩), (14, ⟨"e14", "m", 0, 14⟩), (15, ⟨"e15", "m", 0, 15⟩), (16, ⟨"e16", "m", 0, 16⟩), (17, ⟨"e17", "m", 0, 17⟩), (18, ⟨"e18", "m", 0, 18⟩), (19, ⟨"e19", "m", 0, 19⟩), (20, ⟨"v1", "m", 0, 100⟩)]
      = [(12, ⟨"e12", "m", 0, 12⟩), (13, ⟨"e13", "m", 0, 13⟩), (14, ⟨"e14", "m", 0, 14⟩), (15, ⟨"e15", "m", 0, 15⟩), (16, ⟨"e16", "m", 0, 16⟩), (17, ⟨"e17", "m", 0, 17⟩), (18, ⟨"e18", "m", 0, 18⟩), (19, ⟨"e19", "m", 0, 19⟩), (20, ⟨"v1", "m", 0, 100⟩)] := by
    simp only [insertRowBy]
    rw [if_pos (by norm_num [sqDistDeg])]
  have i11 : insertRowBy (fun p => sqDistDeg 0 0 p.2.lat p.2.lon)
      (11, ⟨"e11", "m", 0, 11⟩)
      [(12, ⟨"e12", "m", 0, 12⟩), (13, ⟨"e13", "m", 0, 13⟩), (14, ⟨"e14", "m", 0, 14⟩), (15, ⟨"e15", "m", 0, 15⟩), (16, ⟨"e16", "m", 0, 16⟩), (17, ⟨"e17", "m", 0, 17⟩), (18, ⟨"e18", "m", 0, 18⟩), (19, ⟨"e19", "m", 0, 19⟩), (20, ⟨"v1", "m", 0, 100⟩)]
      = [(11, ⟨"e11", "m", 0, 11⟩), (12, ⟨"e12", "m", 0, 12⟩), (13, ⟨"e13", "m", 0, 13⟩), (14, ⟨"e14", "m", 0, 14⟩), (15, ⟨"e15", "m", 0, 15⟩), (16, ⟨"e16", "m", 0, 16⟩), (17, ⟨"e17", "m", 0, 17⟩), (18, ⟨"e18", "m", 0, 18⟩), (19, ⟨"e19", "m", 0, 19⟩), (20, ⟨"v1", "m", 0, 100⟩)] := by
    simp only [insertRowBy]
    rw [if_pos (by norm_num [sqDistDeg])]
  have i10 : insertRowBy (fun p => sqDistDeg 0 0 p.2.lat p.2.lon)
      (10, ⟨"e10", "m", 0, 10⟩)
      [(11, ⟨"e11", "m", 0, 11⟩), (12, ⟨"e12", "m", 0, 12⟩), (13, ⟨"e13", "m", 0, 13⟩), (14, ⟨"e14", "m", 0, 14⟩), (15, ⟨"e15", "m", 0, 15⟩), (16, ⟨"e16", "m", 0, 16⟩), (17, ⟨"e17", "m", 0, 17⟩), (18, ⟨"e18", "m", 0, 18⟩), (19, ⟨"e19", "m", 0, 19⟩), (20, ⟨"v1", "m", 0, 100⟩)]
      = [(10, ⟨"e10", "m", 0, 10⟩), (11, ⟨"e11", "m", 0, 11⟩), (12, ⟨"e12", "m", 0, 12⟩), (13, ⟨"e13", "m", 0, 13⟩), (14, ⟨"e14", "m", 0, 14⟩), (15, ⟨"e15", "m", 0, 15⟩), (16, ⟨"e16", "m", 0, 16⟩), (17, ⟨"e17", "m", 0, 17⟩), (18, ⟨"e18", "m", 0, 18⟩), (19, ⟨"e19", "m", 0, 19⟩), (20, ⟨"v1", "m", 0, 100⟩)] := by
    simp only [insertRowBy]
    rw [if_pos (by norm_num [sqDistDeg])]
  have i09 : insertRowBy (fun p => sqDistDeg 0 0 p.2.lat p.2.lon)
      (9, ⟨"e09", "m", 0, 9⟩)
      [(10, ⟨"e10", "m", 0, 10⟩), (11, ⟨"e11", "m", 0, 11⟩), (12, ⟨"e12", "m", 0, 12⟩), (13, ⟨"e13", "m", 0, 13⟩), (14, ⟨"e14", "m", 0, 14⟩), (15, ⟨"e15", "m", 0, 15⟩), (16, ⟨"e16", "m", 0, 16⟩), (17, ⟨"e17", "m", 0, 17⟩), (18, ⟨"e18", "m", 0, 18⟩), (19, ⟨"e19", "m", 0, 19⟩), (20, ⟨"v1", "m", 0, 100⟩)]
      = [(9, ⟨"e09", "m", 0, 9⟩), (10, ⟨"e10", "m", 0, 10⟩), (11, ⟨"e11", "m", 0, 11⟩), (12, ⟨"e12", "m", 0, 12⟩), (13, ⟨"e13", "m", 0, 13⟩), (14, ⟨"e14", "m", 0, 14⟩), (15, ⟨"e15", "m", 0, 15⟩), (16, ⟨"e16", "m", 0, 16⟩), (17, ⟨"e17", "m", 0, 17⟩), (18, ⟨"e18", "m", 0, 18⟩), (19, ⟨"e19", "m", 0, 19⟩), (20, ⟨"v1", "m", 0, 100⟩)] := by
    simp only [insertRowBy]
    rw [if_pos (by norm_num [sqDistDeg])]
  have i08 : insertRowBy (fun p => sqDistDeg 0 0 p.2.lat p.2.lon)
      (8, ⟨"e08", "m", 0, 8⟩)
      [(9, ⟨"e09", "m", 0, 9⟩), (10, ⟨"e10", "m", 0, 10⟩), (11, ⟨"e11", "m", 0, 11⟩), (12, ⟨"e12", "m", 0, 12⟩), (13, ⟨"e13", "m", 0, 13⟩), (14, ⟨"e14", "m", 0, 14⟩), (15, ⟨"e15", "m", 0, 15⟩), (16, ⟨"e16", "m", 0, 16⟩), (17, ⟨"e17", "m", 0, 17⟩), (18, ⟨"e18", "m", 0, 18⟩), (19, ⟨"e19", "m", 0, 19⟩), (20, ⟨"v1", "m", 0, 100⟩)]
      = [(8, ⟨"e08", "m", 0, 8⟩), (9, ⟨"e09", "m", 0, 9⟩), (10, ⟨"e10", "m", 0, 10⟩), (11, ⟨"e11", "m", 0, 11⟩), (12, ⟨"e12", "m", 0, 12⟩), (13, ⟨"e13", "m", 0, 13⟩), (14, ⟨"e14", "m", 0, 14⟩), (15, ⟨"e15", "m", 0, 15⟩), (16, ⟨"e16", "m", 0, 16⟩), (17, ⟨"e17", "m", 0, 17⟩), (18, ⟨"e18", "m", 0, 18⟩), (19, ⟨"e19", "m", 0, 19⟩), (20, ⟨"v1", "m", 0, 100⟩)] := by
    simp only [insertRowBy]
    rw [if_pos (by norm_num [sqDistDeg])]
  have i07 : insertRowBy (fun p => sqDistDeg 0 0 p.2.lat p.2.lon)
      (7, ⟨"e07", "m", 0, 7⟩)
      [(8, ⟨"e08", "m", 0, 8⟩), (9, ⟨"e09", "m", 0, 9⟩), (10, ⟨"e10", "m", 0, 10⟩), (11, ⟨"e11", "m", 0, 11⟩), (12, ⟨"e12", "m", 0, 12⟩), (13, ⟨"e13", "m", 0, 13⟩), (14, ⟨"e14", "m", 0, 14⟩), (15, ⟨"e15", "m", 0, 15⟩), (16, ⟨"e16", "m", 0, 16⟩), (17, ⟨"e17", "m", 0, 17⟩), (18, ⟨"e18", "m", 0, 18⟩), (19, ⟨"e19", "m", 0, 19⟩), (20, ⟨"v1", "m", 0, 100⟩)]
      = [(7, ⟨"e07", "m", 0, 7⟩), (8, ⟨"e08", "m", 0, 8⟩), (9, ⟨"e09", "m", 0, 9⟩), (10, ⟨"e10", "m", 0, 10⟩), (11, ⟨"e11", "m", 0, 11⟩), (12, ⟨"e12", "m", 0, 12⟩), (13, ⟨"e13", "m", 0, 13⟩), (14, ⟨"e14", "m", 0, 14⟩), (15, ⟨"e15", "m", 0, 15⟩), (16, ⟨"e16", "m", 0, 16⟩), (17, ⟨"e17", "m", 0, 17⟩), (18, ⟨"e18", "m", 0, 18⟩), (19, ⟨"e19", "m", 0, 19⟩), (20, ⟨"v1", "m", 0, 100⟩)] := by
    simp only [insertRowBy]
    rw [if_pos (by norm_num [sqDistDeg])]
  have i06 : insertRowBy (fun p => sqDistDeg 0 0 p.2.lat p.2.lon)
      (6, ⟨"e06", "m", 0, 6⟩)
      [(7, ⟨"e07", "m", 0, 7⟩), (8, ⟨"e08", "m", 0, 8⟩), (9, ⟨"e09", "m", 0, 9⟩), (10, ⟨"e10", "m", 0, 10⟩), (11, ⟨"e11", "m", 0, 11⟩), (12, ⟨"e12", "m", 0, 12⟩), (13, ⟨"e13", "m", 0, 13⟩), (14, ⟨"e14", "m", 0, 14⟩), (15, ⟨"e15", "m", 0, 15⟩), (16, ⟨"e16", "m", 0, 16⟩), (17, ⟨"e17", "m", 0, 17⟩), (18, ⟨"e18", "m", 0, 18⟩), (19, ⟨"e19", "m", 0, 19⟩), (20, ⟨"v1", "m", 0, 100⟩)]
      = [(6, ⟨"e06", "m", 0, 6⟩), (7, ⟨"e07", "m", 0, 7⟩), (8, ⟨"e08", "m", 0, 8⟩), (9, ⟨"e09", "m", 0, 9⟩), (10, ⟨"e10", "m", 0, 10⟩), (11, ⟨"e11", "m", 0, 11⟩), (12, ⟨"e12", "m", 0, 12⟩), (13, ⟨"e13", "m", 0, 13⟩), (14, ⟨"e14", "m", 0, 14⟩), (15, ⟨"e15", "m", 0, 15⟩), (16, ⟨"e16", "m", 0, 16⟩), (17, ⟨"e17", "m", 0, 17⟩), (18, ⟨"e18", "m", 0, 18⟩), (19, ⟨"e19", "m", 0, 19⟩), (20, ⟨"v1", "m", 0, 100⟩)] := by
    simp only [insertRowBy]
    rw [if_pos (by norm_num [sqDistDeg])]
  have i05 : insertRowBy (fun p => sqDistDeg 0 0 p.2.lat p.2.lon)
      (5, ⟨"e05", "m", 0, 5⟩)
      [(6, ⟨"e06", "m", 0, 6⟩), (7, ⟨"e07", "m", 0, 7⟩), (8, ⟨"e08", "m", 0, 8⟩), (9, ⟨"e09", "m", 0, 9⟩), (10, ⟨"e10", "m", 0, 10⟩), (11, ⟨"e11", "m", 0, 11⟩), (12, ⟨"e12", "m", 0, 12⟩), (13, ⟨"e13", "m", 0, 13⟩), (14, ⟨"e14", "m", 0, 14⟩), (15, ⟨"e15", "m", 0, 15⟩), (16, ⟨"e16", "m", 0, 16⟩), (17, ⟨"e17", "m", 0, 17⟩), (18, ⟨"e18", "m", 0, 18⟩), (19, ⟨"e19", "m", 0, 19⟩), (20, ⟨"v1", "m", 0, 100⟩)]
      = [(5, ⟨"e05", "m", 0, 5⟩), (6, ⟨"e06", "m", 0, 6⟩), (7, ⟨"e07", "m", 0, 7⟩), (8, ⟨"e08", "m", 0, 8⟩), (9, ⟨"e09", "m", 0, 9⟩), (10, ⟨"e10", "m", 0, 10⟩), (11, ⟨"e11", "m", 0, 11⟩), (12, ⟨"e12", "m", 0, 12⟩), (13, ⟨"e13", "m", 0, 13⟩), (14, ⟨"e14", "m", 0, 14⟩), (15, ⟨"e15", "m", 0, 15⟩), (16, ⟨"e16", "m", 0, 16⟩), (17, ⟨"e17", "m", 0, 17⟩), (18, ⟨"e18", "m", 0, 18⟩), (19, ⟨"e19", "m", 0, 19⟩), (20, ⟨"v1", "m", 0, 100⟩)] := by
    simp only [insertRowBy]
    rw [if_pos (by norm_num [sqDistDeg])]
  have i04 : insertRowBy (fun p => sqDistDeg 0 0 p.2.lat p.2.lon)
      (4, ⟨"e04", "m", 0, 4⟩)
      [(5, ⟨"e05", "m", 0, 5⟩), (6, ⟨"e06", "m", 0, 6⟩), (7, ⟨"e07", "m", 0, 7⟩), (8, ⟨"e08", "m", 0, 8⟩), (9, ⟨"e09", "m", 0, 9⟩), (10, ⟨"e10", "m", 0, 10⟩), (11, ⟨"e11", "m", 0, 11⟩), (12, ⟨"e12", "m", 0, 12⟩), (13, ⟨"e13", "m", 0, 13⟩), (14, ⟨"e14", "m", 0, 14⟩), (15, ⟨"e15", "m", 0, 15⟩), (16, ⟨"e16", "m", 0, 16⟩), (17, ⟨"e17", "m", 0, 17⟩), (18, ⟨"e18", "m", 0, 18⟩), (19, ⟨"e19", "m", 0, 19⟩), (20, ⟨"v1", "m", 0, 100⟩)]
      = [(4, ⟨"e04", "m", 0, 4⟩), (5, ⟨"e05", "m", 0, 5⟩), (6, ⟨"e06", "m", 0, 6⟩), (7, ⟨"e07", "m", 0, 7⟩), (8, ⟨"e08", "m", 0, 8⟩), (9, ⟨"e09", "m", 0, 9⟩), (10, ⟨"e10", "m", 0, 10⟩), (11, ⟨"e11", "m", 0, 11⟩), (12, ⟨"e12", "m", 0, 12⟩), (13, ⟨"e13", "m", 0, 13⟩), (14, ⟨"e14", "m", 0, 14⟩), (15, ⟨"e15", "m", 0, 15⟩), (16, ⟨"e16", "m", 0, 16⟩), (17, ⟨"e17", "m", 0, 17⟩), (18, ⟨"e18", "m", 0, 18⟩), (19, ⟨"e19", "m", 0, 19⟩), (20, ⟨"v1", "m", 0, 100⟩)] := by
    simp only [insertRowBy]
    rw [if_pos (by norm_num [sqDistDeg])]
  have i03 : insertRowBy (fun p => sqDistDeg 0 0 p.2.lat p.2.lon)
      (3, ⟨"e03", "m", 0, 3⟩)
      [(4, ⟨"e04", "m", 0, 4⟩), (5, ⟨"e05", "m", 0, 5⟩), (6, ⟨"e06", "m", 0, 6⟩), (7, ⟨"e07", "m", 0, 7⟩), (8, ⟨"e08", "m", 0, 8⟩), (9, ⟨"e09", "m", 0, 9⟩), (10, ⟨"e10", "m", 0, 10⟩), (11, ⟨"e11", "m", 0, 11⟩), (12, ⟨"e12", "m", 0, 12⟩), (13, ⟨"e13", "m", 0, 13⟩), (14, ⟨"e14", "m", 0, 14⟩), (15, ⟨"e15", "m", 0, 15⟩), (16, ⟨"e16", "m", 0, 16⟩), (17, ⟨"e17", "m", 0, 17⟩), (18, ⟨"e18", "m", 0, 18⟩), (19, ⟨"e19", "m", 0, 19⟩), (20, ⟨"v1", "m", 0, 100⟩)]
      = [(3, ⟨"e03", "m", 0, 3⟩), (4, ⟨"e04", "m", 0, 4⟩), (5, ⟨"e05", "m", 0, 5⟩), (6, ⟨"e06", "m", 0, 6⟩), (7, ⟨"e07", "m", 0, 7⟩), (8, ⟨"e08", "m", 0, 8⟩), (9, ⟨"e09", "m", 0, 9⟩), (10, ⟨"e10", "m", 0, 10⟩), (11, ⟨"e11", "m", 0, 11⟩), (12, ⟨"e12", "m", 0, 12⟩), (13, ⟨"e13", "m", 0, 13⟩), (14, ⟨"e14", "m", 0, 14⟩), (15, ⟨"e15", "m", 0, 15⟩), (16, ⟨"e16", "m", 0, 16⟩), (17, ⟨"e17", "m", 0, 17⟩), (18, ⟨"e18", "m", 0, 18⟩), (19, ⟨"e19", "m", 0, 19⟩), (20, ⟨"v1", "m", 0, 100⟩)] := by
    simp only [insertRowBy]
    rw [if_pos (by norm_num [sqDistDeg])]
  have i02 : insertRowBy (fun p => sqDistDeg 0 0 p.2.lat p.2.lon)
      (2, ⟨"e02", "m", 0, 2⟩)
      [(3, ⟨"e03", "m", 0, 3⟩), (4, ⟨"e04", "m", 0, 4⟩), (5, ⟨"e05", "m", 0, 5⟩), (6, ⟨"e06", "m", 0, 6⟩), (7, ⟨"e07", "m", 0, 7⟩), (8, ⟨"e08", "m", 0, 8⟩), (9, ⟨"e09", "m", 0, 9⟩), (10, ⟨"e10", "m", 0, 10⟩), (11, ⟨"e11", "m", 0, 11⟩), (12, ⟨"e12", "m", 0, 12⟩), (13, ⟨"e13", "m", 0, 13⟩), (14, ⟨"e14", "m", 0, 14⟩), (15, ⟨"e15", "m", 0, 15⟩), (16, ⟨"e16", "m", 0, 16⟩), (17, ⟨"e17", "m", 0, 17⟩), (18, ⟨"e18", "m", 0, 18⟩), (19, ⟨"e19", "m", 0, 19⟩), (20, ⟨"v1", "m", 0, 100⟩)]
      = [(2, ⟨"e02", "m", 0, 2⟩), (3, ⟨"e03", "m", 0, 3⟩), (4, ⟨"e04", "m", 0, 4⟩), (5, ⟨"e05", "m", 0, 5⟩), (6, ⟨"e06", "m", 0, 6⟩), (7, ⟨"e07", "m", 0, 7⟩), (8, ⟨"e08", "m", 0, 8⟩), (9, ⟨"e09", "m", 0, 9⟩), (10, ⟨"e10", "m", 0, 10⟩), (11, ⟨"e11", "m", 0, 11⟩), (12, ⟨"e12", "m", 0, 12⟩), (13, ⟨"e13", "m", 0, 13⟩), (14, ⟨"e14", "m", 0, 14⟩), (15, ⟨"e15", "m", 0, 15⟩), (16, ⟨"e16", "m", 0, 16⟩), (17, ⟨"e17", "m", 0, 17⟩), (18, ⟨"e18", "m", 0, 18⟩), (19, ⟨"e19", "m", 0, 19⟩), (20, ⟨"v1", "m", 0, 100⟩)] := by
    simp only [insertRowBy]
    rw [if_pos (by norm_num [sqDistDeg])]
  have i01 : insertRowBy (fun p => sqDistDeg 0 0 p.2.lat p.2.lon)
      (1, ⟨"e01", "m", 0, 1⟩)
      [(2, ⟨"e02", "m", 0, 2⟩), (3, ⟨"e03", "m", 0, 3⟩), (4, ⟨"e04", "m", 0, 4⟩), (5, ⟨"e05", "m", 0, 5⟩), (6, ⟨"e06", "m", 0, 6⟩), (7, ⟨"e07", "m", 0, 7⟩), (8, ⟨"e08", "m", 0, 8⟩), (9, ⟨"e09", "m", 0, 9⟩), (10, ⟨"e10", "m", 0, 10⟩), (11, ⟨"e11", "m", 0, 11⟩), (12, ⟨"e12", "m", 0, 12⟩), (13, ⟨"e13", "m", 0, 13⟩), (14, ⟨"e14", "m", 0, 14⟩), (15, ⟨"e15", "m", 0, 15⟩), (16, ⟨"e16", "m", 0, 16⟩), (17, ⟨"e17", "m", 0, 17⟩), (18, ⟨"e18", "m", 0, 18⟩), (19, ⟨"e19", "m", 0, 19⟩), (20, ⟨"v1", "m", 0, 100⟩)]
      = [(1, ⟨"e01", "m", 0, 1⟩), (2, ⟨"e02", "m", 0, 2⟩), (3, ⟨"e03", "m", 0, 3⟩), (4, ⟨"e04", "m", 0, 4⟩), (5, ⟨"e05", "m", 0, 5⟩), (6, ⟨"e06", "m", 0, 6⟩), (7, ⟨"e07", "m", 0, 7⟩), (8, ⟨"e08", "m", 0, 8⟩), (9, ⟨"e09", "m", 0, 9⟩), (10, ⟨"e10", "m", 0, 10⟩), (11, ⟨"e11", "m", 0, 11⟩), (12, ⟨"e12", "m", 0, 12⟩), (13, ⟨"e13", "m", 0, 13⟩), (14, ⟨"e14", "m", 0, 14⟩), (15, ⟨"e15", "m", 0, 15⟩), (16, ⟨"e16", "m", 0, 16⟩), (17, ⟨"e17", "m", 0, 17⟩), (18, ⟨"e18", "m", 0, 18⟩), (19, ⟨"e19", "m", 0, 19⟩), (20, ⟨"v1", "m", 0, 100⟩)] := by
    simp only [insertRowBy]
    rw [if_pos (by norm_num [sqDistDeg])]
  have i00 : insertRowBy (fun p => sqDistDeg 0 0 p.2.lat p.2.lon)
      (0, ⟨"q", "m", 0, 0⟩)
      [(1, ⟨"e01", "m", 0, 1⟩), (2, ⟨"e02", "m", 0, 2⟩), (3, ⟨"e03", "m", 0, 3⟩), (4, ⟨"e04", "m", 0, 4⟩), (5, ⟨"e05", "m", 0, 5⟩), (6, ⟨"e06", "m", 0, 6⟩), (7, ⟨"e07", "m", 0, 7⟩), (8, ⟨"e08", "m", 0, 8⟩), (9, ⟨"e09", "m", 0, 9⟩), (10, ⟨"e10", "m", 0, 10⟩), (11, ⟨"e11", "m", 0, 11⟩), (12, ⟨"e12", "m", 0, 12⟩), (13, ⟨"e13", "m", 0, 13⟩), (14, ⟨"e14", "m", 0, 14⟩), (15, ⟨"e15", "m", 0, 15⟩), (16, ⟨"e16", "m", 0, 16⟩), (17, ⟨"e17", "m", 0, 17⟩), (18, ⟨"e18", "m", 0, 18⟩), (19, ⟨"e19", "m", 0, 19⟩), (20, ⟨"v1", "m", 0, 100⟩)]
      = [(0, ⟨"q", "m", 0, 0⟩), (1, ⟨"e01", "m", 0, 1⟩), (2, ⟨"e02", "m", 0, 2⟩), (3, ⟨"e03", "m", 0, 3⟩), (4, ⟨"e04", "m", 0, 4⟩), (5, ⟨"e05", "m", 0, 5⟩), (6, ⟨"e06", "m", 0, 6⟩), (7, ⟨"e07", "m", 0, 7⟩), (8, ⟨"e08", "m", 0, 8⟩), (9, ⟨"e09", "m", 0, 9⟩), (10, ⟨"e10", "m", 0, 10⟩), (11, ⟨"e11", "m", 0, 11⟩), (12, ⟨"e12", "m", 0, 12⟩), (13, ⟨"e13", "m", 0, 13⟩), (14, ⟨"e14", "m", 0, 14⟩), (15, ⟨"e15", "m", 0, 15⟩), (16, ⟨"e16", "m", 0, 16⟩), (17, ⟨"e17", "m", 0, 17⟩), (18, ⟨"e18", "m", 0, 18⟩), (19, ⟨"e19", "m", 0, 19⟩), (20, ⟨"v1", "m", 0, 100⟩)] := by
    simp only [insertRowBy]
    rw [if_pos (by norm_num [sqDistDeg])]
  simp only [getNearestNeighbor, htr, hq, kNearest, henum, sortRowsBy, i20, i19, i18, i17, i16, i15, i14, i13, i12, i11, i10, i09, i08, i07, i06, i05, i04, i03, i02, i01, i00]
  rfl


theorem scanPairs_mem (dist : String → String → ℚ) (pairs : List (String × String)) :
    ∀ (acc : Option (ℚ × String)) (m : ℚ) (b : String),
      scanPairs dist pairs acc = some (m, b) →
      b ∈ pairs.map (fun tc => tc.2) ∨ ∃ m0, acc = some (m0, b) := by
  induction pairs with
  | nil =>
    intro acc m b hb
    simp only [scanPairs] at hb
    exact Or.inr ⟨m, hb⟩
  | cons p rest ih =>
    obtain ⟨t, c⟩ := p
    intro acc m b hb
    rcases acc with _ | ⟨m1, b1⟩
    · simp only [scanPairs] at hb
      rcases ih _ m b hb with h1 | ⟨m0, h2⟩
      · exact Or.inl (List.mem_cons_of_mem _ h1)
      · have : c = b := congrArg (fun o => (Option.getD o (0, "")).2) h2
        exact Or.inl (by rw [← this]; exact List.mem_cons_self _ _)
    · simp only [scanPairs] at hb
      by_cases hlt : dist t c < m1
      · rw [if_pos hlt] at hb
        rcases ih _ m b hb with h1 | ⟨m0, h2⟩
        · exact Or.inl (List.mem_cons_of_mem _ h1)
        · have : c = b := congrArg (fun o => (Option.getD o (0, "")).2) h2
          exact Or.inl (by rw [← this]; exact List.mem_cons_self _ _)
      · rw [if_neg hlt] at hb
        rcases ih _ m b hb with h1 | ⟨m0, h2⟩
        · exact Or.inl (List.mem_cons_of_mem _ h1)
        · have : b1 = b := congrArg (fun o => (Option.getD o (0, "")).2) h2
          exact Or.inr ⟨m1, by rw [this]⟩

/-- A found nearest neighbor is an available (unprocessed) tract. -/
theorem nearestNeighborTract_mem (dist : String → String → ℚ)
    (cluster available : List String) (nb : String)
    (h : nearestNeighborTract dist cluster available = some nb) : nb ∈ available := by
  rw [nearestNeighborTract] at h
  by_cases hav : available.isEmpty
  · rw [if_pos hav] at h
    exact absurd h (by simp)
  · rw [if_neg hav] at h
    cases hs : scanPairs dist
        (cluster.flatMap (fun t => available.map (fun c => (t, c)))) none with
    | none => rw [hs] at h; exact absurd h (by simp)
    | some mb =>
      obtain ⟨m, b⟩ := mb
      rw [hs] at h
      have hbnb : b = nb := by injection h
      rcases scanPairs_mem dist _ _ m b hs with h1 | ⟨m0, h2⟩
      · rw [← hbnb]
        rcases List.mem_map.mp h1 with ⟨tc, htc, hsnd⟩
        rcases List.mem_flatMap.mp htc with ⟨t2, _, hmem2⟩
        rcases List.mem_map.mp hmem2 with ⟨c2, hc2, hpair⟩
        rw [← hsnd, ← hpair]
        exact hc2
      · exact absurd h2 (by simp)

theorem scanPairs_some_acc_ne_none (dist : String → String → ℚ)
    (pairs : List (String × String)) :
    ∀ (x : ℚ × String), scanPairs dist pairs (some x) ≠ none := by
  induction pairs with
  | nil =>
    intro x hx
    simp only [scanPairs] at hx
    exact Option.noConfusion hx
  | cons p rest ih =>
    obtain ⟨t, c⟩ := p
    intro x hx
    obtain ⟨m1, b1⟩ := x
    simp only [scanPairs] at hx
    by_cases hlt : dist t c < m1
    · rw [if_pos hlt] at hx
      exact ih _ hx
    · rw [if_neg hlt] at hx
      exact ih _ hx

theorem scanPairs_flatMap_ne_none (dist : String → String → ℚ)
    (cluster available : List String) (hc : cluster ≠ []) (ha : available ≠ []) :
    scanPairs dist (cluster.flatMap (fun t => available.map (fun c => (t, c))))
      none ≠ none := by
  obtain ⟨t, cl2, rfl⟩ := List.exists_cons_of_ne_nil hc
  obtain ⟨c, av2, rfl⟩ := List.exists_cons_of_ne_nil ha
  intro hn
  rw [List.flatMap_cons, List.map_cons, List.cons_append] at hn
  simp only [scanPairs] at hn
  exact scanPairs_some_acc_ne_none dist _ _ hn

/-- The neighbor scan fails only when no unprocessed tract remains (the
cluster is never empty when the scan runs). -/
theorem nearestNeighborTract_none (dist : String → String → ℚ)
    (cluster available : List String) (hc : cluster ≠ [])
    (h : nearestNeighborTract dist cluster available = none) : available = [] := by
  rw [nearestNeighborTract] at h
  by_cases hav : available.isEmpty
  · exact List.isEmpty_iff.mp hav
  · exfalso
    rw [if_neg hav] at h
    have hane : available ≠ [] := by
      intro he
      rw [he] at hav
      exact hav rfl
    cases hs : scanPairs dist
        (cluster.flatMap (fun t => available.map (fun c => (t, c)))) none with
    | none => exact scanPairs_flatMap_ne_none dist cluster available hc hane hs
    | some mb =>
      rw [hs] at h
      obtain ⟨m, b⟩ := mb
      simp at h

theorem nodup_uniqueKeepAux {α : Type} [DecidableEq α] (l : List α) :
    ∀ (seen : List α), (uniqueKeepAux seen l).Nodup := by
  induction l with
  | nil => intro seen; simp [uniqueKeepAux]
  | cons x xs ih =>
    intro seen
    simp only [uniqueKeepAux]
    by_cases hx : x ∈ seen
    · rw [if_pos hx]
      exact ih seen
    · rw [if_neg hx]
      refine List.Pairwise.cons ?_ (ih (x :: seen))
      intro a ha
      have := (mem_uniqueKeepAux xs (x :: seen) a).mp ha
      intro hax
      exact this.2 (by rw [← hax]; exact List.mem_cons_self _ _)

theorem nodup_uniqueKeep {α : Type} [DecidableEq α] (l : List α) :
    (uniqueKeep l).Nodup :=
  nodup_uniqueKeepAux l []

theorem nodup_availableTracts (cbsaTracts processed : List String) :
    (availableTracts cbsaTracts processed).Nodup :=
  (nodup_uniqueKeep cbsaTracts).filter _

/-- Marking one more tract processed shrinks the available set by exactly
that tract. -/
theorem availableTracts_append (cbsaTracts processed : List String) (nb : String) :
    availableTracts cbsaTracts (processed ++ [nb])
      = (availableTracts cbsaTracts processed).filter (fun t => decide (t ≠ nb)) := by
  rw [availableTracts, availableTracts, List.filter_filter]
  refine List.filter_congr ?_
  intro t _
  by_cases h1 : t ∈ processed <;> by_cases h2 : t = nb <;>
    simp [h1, h2, List.mem_append]

theorem availableTracts_append_erase (cbsaTracts processed : List String)
    (nb : String) :
    availableTracts cbsaTracts (processed ++ [nb])
      = (availableTracts cbsaTracts processed).erase nb := by
  rw [availableTracts_append,
    List.Nodup.erase_eq_filter (nodup_availableTracts cbsaTracts processed)]
  refine List.filter_congr ?_
  intro t _
  simp only [bne, decide_not]
  rw [show (decide (t = nb)) = (t == nb) from rfl]


/-- The merge loop extends cluster and processed by the same merged
tracts, every merged tract was unprocessed, and the unprocessed list
stays the complement of the processed set. -/
theorem growCluster_spec (sales : List Sale) (year : Int) (thr : Nat)
    (dist : String → String → ℚ) (cbsaTracts : List String) :
    ∀ (cluster processed unprocessed : List String),
      unprocessed = availableTracts cbsaTracts processed →
      ∃ d : List String,
        (growCluster sales year thr dist cbsaTracts cluster processed unprocessed).1
          = cluster ++ d ∧
        (growCluster sales year thr dist cbsaTracts cluster processed unprocessed).2.1
          = processed ++ d ∧
        (growCluster sales year thr dist cbsaTracts cluster processed unprocessed).2.2
          = availableTracts cbsaTracts
              (growCluster sales year thr dist cbsaTracts cluster processed
                unprocessed).2.1 ∧
        ∀ x ∈ d, x ∈ unprocessed := by
  intro cluster processed unprocessed
  induction cluster, processed, unprocessed
      using growCluster.induct sales year thr dist cbsaTracts with
  | case1 cl pr un hthr =>
    intro hinv
    have hred : growCluster sales year thr dist cbsaTracts cl pr un = (cl, pr, un) := by
      rw [growCluster, if_pos hthr]
    exact ⟨[], by rw [hred]; simp, by rw [hred]; simp, by rw [hred]; exact hinv, by simp⟩
  | case2 cl pr un hthr hnone =>
    intro hinv
    have hred : growCluster sales year thr dist cbsaTracts cl pr un = (cl, pr, un) := by
      rw [growCluster, if_neg hthr]
      split
      · rfl
      · next nb2 hnb2 =>
        rw [hnone] at hnb2
        exact Option.noConfusion hnb2
    exact ⟨[], by rw [hred]; simp, by rw [hred]; simp, by rw [hred]; exact hinv, by simp⟩
  | case3 cl pr un hthr nb hnb ih =>
    intro hinv
    have hred : growCluster sales year thr dist cbsaTracts cl pr un
        = growCluster sales year thr dist cbsaTracts (cl ++ [nb]) (pr ++ [nb])
            (un.erase nb) := by
      conv_lhs => rw [growCluster, if_neg hthr]
      split
      · next hnb2 =>
        rw [hnb] at hnb2
        exact Option.noConfusion hnb2
      · next nb2 hnb2 =>
        rw [hnb] at hnb2
        have : nb = nb2 := by injection hnb2
        rw [this]
    have hnbmem : nb ∈ availableTracts cbsaTracts pr :=
      nearestNeighborTract_mem _ _ _ _ hnb
    have hinv2 : un.erase nb = availableTracts cbsaTracts (pr ++ [nb]) := by
      rw [availableTracts_append_erase, hinv]
    obtain ⟨d, h1, h2, h3, h4⟩ := ih hinv2
    refine ⟨nb :: d, ?_, ?_, ?_, ?_⟩
    · rw [hred, h1, List.append_assoc]
      rfl
    · rw [hred, h2, List.append_assoc]
      rfl
    · rw [hred]
      exact h3
    · intro x hx
      rcases List.mem_cons.mp hx with hxe | hxd
      · rw [hinv, hxe]
        exact hnbmem
      · exact List.mem_of_mem_erase (h4 x hxd)

/-- The merge loop stops only with both thresholds met, or with every
metro tract already processed. -/
theorem growCluster_thresholds (sales : List Sale) (year : Int) (thr : Nat)
    (dist : String → String → ℚ) (cbsaTracts : List String) :
    ∀ (cluster processed unprocessed : List String), cluster ≠ [] →
      (thr ≤ halfPairsMulti sales year
          (growCluster sales year thr dist cbsaTracts cluster processed
            unprocessed).1 ∧
       thr ≤ halfPairsMulti sales (year - 1)
          (growCluster sales year thr dist cbsaTracts cluster processed
            unprocessed).1) ∨
      availableTracts cbsaTracts
        (growCluster sales year thr dist cbsaTracts cluster processed
          unprocessed).2.1 = [] := by
  intro cluster processed unprocessed
  induction cluster, processed, unprocessed
      using growCluster.induct sales year thr dist cbsaTracts with
  | case1 cl pr un hthr =>
    intro _
    have hred : growCluster sales year thr dist cbsaTracts cl pr un = (cl, pr, un) := by
      rw [growCluster, if_pos hthr]
    rw [hred]
    exact Or.inl hthr
  | case2 cl pr un hthr hnone =>
    intro hc
    have hred : growCluster sales year thr dist cbsaTracts cl pr un = (cl, pr, un) := by
      rw [growCluster, if_neg hthr]
      split
      · rfl
      · next nb2 hnb2 =>
        rw [hnone] at hnb2
        exact Option.noConfusion hnb2
    rw [hred]
    exact Or.inr (nearestNeighborTract_none dist cl _ hc hnone)
  | case3 cl pr un hthr nb hnb ih =>
    intro _
    have hred : growCluster sales year thr dist cbsaTracts cl pr un
        = growCluster sales year thr dist cbsaTracts (cl ++ [nb]) (pr ++ [nb])
            (un.erase nb) := by
      conv_lhs => rw [growCluster, if_neg hthr]
      split
      · next hnb2 =>
        rw [hnb] at hnb2
        exact Option.noConfusion hnb2
      · next nb2 hnb2 =>
        rw [hnb] at hnb2
        have : nb = nb2 := by injection hnb2
        rw [this]
    rw [hred]
    exact ih (by simp)


theorem mem_availableTracts (cbsaTracts processed : List String) (x : String) :
    x ∈ availableTracts cbsaTracts processed
      ↔ x ∈ uniqueKeep cbsaTracts ∧ x ∉ processed := by
  simp [availableTracts, List.mem_filter]

/-- Dropping the snapshots of the instrumented loop gives the plain
loop. -/
theorem secondPassTrace_map_fst (sales : List Sale) (year : Int) (thr : Nat)
    (dist : String → String → ℚ) (cbsaTracts : List String) :
    ∀ (processed unprocessed : List String),
      (secondPassTrace sales year thr dist cbsaTracts processed unprocessed).map
          Prod.fst
        = secondPass sales year thr dist cbsaTracts processed unprocessed := by
  intro processed unprocessed
  induction processed, unprocessed
      using secondPassTrace.induct sales year thr dist cbsaTracts with
  | case1 pr =>
    rw [secondPassTrace, secondPass]
    rfl
  | case2 pr t rest g ih =>
    rw [secondPassTrace, secondPass]
    simp only [List.map_cons]
    exact congrArg (fun l => (growCluster sales year thr dist cbsaTracts [t]
      (pr ++ [t]) ((t :: rest).erase t)).1 :: l) ih

/-- Every cluster the merge loop emits either meets both thresholds or
was emitted with no unprocessed tract remaining (its snapshot empty). -/
theorem secondPassTrace_spec (sales : List Sale) (year : Int) (thr : Nat)
    (dist : String → String → ℚ) (cbsaTracts : List String) :
    ∀ (processed unprocessed : List String),
      unprocessed = availableTracts cbsaTracts processed →
      ∀ p ∈ secondPassTrace sales year thr dist cbsaTracts processed unprocessed,
        (thr ≤ halfPairsMulti sales year p.1 ∧
         thr ≤ halfPairsMulti sales (year - 1) p.1) ∨ p.2 = [] := by
  intro processed unprocessed
  induction processed, unprocessed
      using secondPassTrace.induct sales year thr dist cbsaTracts with
  | case1 pr =>
    intro _ p hp
    rw [secondPassTrace] at hp
    exact absurd hp (List.not_mem_nil p)
  | case2 pr t rest g ih =>
    intro hinv p hp
    have hstart : (t :: rest).erase t = availableTracts cbsaTracts (pr ++ [t]) := by
      rw [availableTracts_append_erase, ← hinv]
    obtain ⟨d, h1, h2, h3, h4⟩ := growCluster_spec sales year thr dist cbsaTracts
      [t] (pr ++ [t]) ((t :: rest).erase t) hstart
    rw [secondPassTrace] at hp
    rcases List.mem_cons.mp hp with hph | hpt
    · rcases growCluster_thresholds sales year thr dist cbsaTracts
          [t] (pr ++ [t]) ((t :: rest).erase t) (by simp) with hthr | hempty
      · left
        rw [hph]
        exact hthr
      · right
        rw [hph]
        exact hempty
    · exact ih h3 p hpt

/-- The clusters the merge loop emits cover exactly the unprocessed
tracts it started from, with no tract in two clusters. -/
theorem secondPass_partition (sales : List Sale) (year : Int) (thr : Nat)
    (dist : String → String → ℚ) (cbsaTracts : List String) :
    ∀ (processed unprocessed : List String),
      unprocessed = availableTracts cbsaTracts processed →
      (∀ x, (∃ c ∈ secondPass sales year thr dist cbsaTracts processed unprocessed,
          x ∈ c) ↔ x ∈ unprocessed) ∧
      List.Pairwise (fun a b => ∀ x ∈ a, x ∉ b)
        (secondPass sales year thr dist cbsaTracts processed unprocessed) := by
  intro processed unprocessed
  induction processed, unprocessed
      using secondPass.induct sales year thr dist cbsaTracts with
  | case1 pr =>
    intro hinv
    constructor
    · intro x
      rw [secondPass]
      simp
    · rw [secondPass]
      exact List.Pairwise.nil
  | case2 pr t rest g ih =>
    intro hinv
    have hstart : (t :: rest).erase t = availableTracts cbsaTracts (pr ++ [t]) := by
      rw [availableTracts_append_erase, ← hinv]
    obtain ⟨d, h1, h2, h3, h4⟩ := growCluster_spec sales year thr dist cbsaTracts
      [t] (pr ++ [t]) ((t :: rest).erase t) hstart
    obtain ⟨ihm, ihp⟩ := ih h3
    have hg1 : (growCluster sales year thr dist cbsaTracts [t] (pr ++ [t])
        ((t :: rest).erase t)).1 = t :: d := h1
    have hrecmem : ∀ x, (∃ c ∈ secondPass sales year thr dist cbsaTracts
        (growCluster sales year thr dist cbsaTracts [t] (pr ++ [t])
          ((t :: rest).erase t)).2.1
        (growCluster sales year thr dist cbsaTracts [t] (pr ++ [t])
          ((t :: rest).erase t)).2.2, x ∈ c) →
        x ∈ uniqueKeep cbsaTracts ∧ x ∉ (pr ++ [t]) ++ d := by
      intro x hx
      have hx2 := (ihm x).mp hx
      rw [h3, h2] at hx2
      exact (mem_availableTracts _ _ x).mp hx2
    rw [secondPass]
    constructor
    · intro x
      constructor
      · rintro ⟨c, hc, hxc⟩
        rcases List.mem_cons.mp hc with hce | hcrec
        · rw [hce, hg1] at hxc
          rcases List.mem_cons.mp hxc with hxt | hxd
          · rw [hxt]
            exact List.mem_cons_self t rest
          · exact List.mem_of_mem_erase (h4 x hxd)
        · have := hrecmem x ⟨c, hcrec, hxc⟩
          rw [hinv, mem_availableTracts]
          refine ⟨this.1, ?_⟩
          intro hxpr
          exact this.2 (List.mem_append_left _ (List.mem_append_left _ hxpr))
      · intro hx
        by_cases hxg : x ∈ t :: d
        · exact ⟨(growCluster sales year thr dist cbsaTracts [t] (pr ++ [t])
            ((t :: rest).erase t)).1, List.mem_cons_self _ _, by rw [hg1]; exact hxg⟩
        · have hxavail : x ∈ availableTracts cbsaTracts pr := by
            rw [← hinv]
            exact hx
          have hxuniq := ((mem_availableTracts _ _ x).mp hxavail).1
          have hxpr := ((mem_availableTracts _ _ x).mp hxavail).2
          have hxin : x ∈ (growCluster sales year thr dist cbsaTracts [t] (pr ++ [t])
              ((t :: rest).erase t)).2.2 := by
            rw [h3, h2, mem_availableTracts]
            refine ⟨hxuniq, ?_⟩
            intro hmem
            rcases List.mem_append.mp hmem with hmem1 | hmem2
            · rcases List.mem_append.mp hmem1 with hmem3 | hmem4
              · exact hxpr hmem3
              · exact hxg (by
                  rw [show x = t from List.mem_singleton.mp hmem4]
                  exact List.mem_cons_self _ _)
            · exact hxg (List.mem_cons_of_mem _ hmem2)
          rcases (ihm x).mpr hxin with ⟨c, hcrec, hxc⟩
          exact ⟨c, List.mem_cons_of_mem _ hcrec, hxc⟩
    · refine List.Pairwise.cons ?_ ihp
      intro c2 hc2 x hxg1 hxc2
      have := hrecmem x ⟨c2, hc2, hxc2⟩
      rw [hg1] at hxg1
      rcases List.mem_cons.mp hxg1 with hxt | hxd
      · exact this.2 (List.mem_append_left _ (List.mem_append_right _
          (by rw [hxt]; exact List.mem_singleton.mpr rfl)))
      · exact this.2 (List.mem_append_right _ hxd)


theorem halfPairsMulti_singleton (sales : List Sale) (year : Int) (t : String) :
    halfPairsMulti sales year [t] = halfPairs sales year t := by
  simp [halfPairsMulti, halfPairs, List.mem_singleton]

/-- The clusters the generator emits cover exactly the distinct tracts
of the metro, with no tract in two clusters. -/
theorem generate_partition (sales : List Sale) (geo : List GeoRow) (thr : Nat)
    (dist : String → String → ℚ) (year : Int) (cbsaId : String) :
    (∀ x, (∃ c ∈ generateSupertractsForYear sales geo thr dist year cbsaId,
        x ∈ c) ↔ x ∈ uniqueKeep (cbsaTractsOf geo cbsaId)) ∧
    List.Pairwise (fun a b => ∀ x ∈ a, x ∉ b)
      (generateSupertractsForYear sales geo thr dist year cbsaId) := by
  obtain ⟨hm, hp⟩ := secondPass_partition (cbsaSalesOf sales cbsaId) year thr dist
    (cbsaTractsOf geo cbsaId) (firstPassSingles sales geo thr year cbsaId)
    (availableTracts (cbsaTractsOf geo cbsaId)
      (firstPassSingles sales geo thr year cbsaId)) rfl
  constructor
  · intro x
    rw [generateSupertractsForYear]
    constructor
    · rintro ⟨c, hc, hxc⟩
      rcases List.mem_append.mp hc with hc1 | hc2
      · rcases List.mem_map.mp hc1 with ⟨s, hs, rfl⟩
        rw [List.mem_singleton.mp hxc]
        exact List.mem_of_mem_filter hs
      · exact List.mem_of_mem_filter ((hm x).mp ⟨c, hc2, hxc⟩)
    · intro hx
      by_cases hxs : x ∈ firstPassSingles sales geo thr year cbsaId
      · exact ⟨[x], List.mem_append_left _ (List.mem_map.mpr ⟨x, hxs, rfl⟩),
          List.mem_singleton.mpr rfl⟩
      · have hxu : x ∈ availableTracts (cbsaTractsOf geo cbsaId)
            (firstPassSingles sales geo thr year cbsaId) :=
          (mem_availableTracts _ _ x).mpr ⟨hx, hxs⟩
        rcases (hm x).mpr hxu with ⟨c, hc, hxc⟩
        exact ⟨c, List.mem_append_right _ hc, hxc⟩
  · rw [generateSupertractsForYear, List.pairwise_append]
    refine ⟨?_, hp, ?_⟩
    · rw [List.pairwise_map]
      have hnd : (firstPassSingles sales geo thr year cbsaId).Nodup :=
        (nodup_uniqueKeep _).filter _
      refine hnd.imp ?_
      intro a b hab x hxa hxb
      rw [List.mem_singleton] at hxa hxb
      exact hab (hxa ▸ hxb)
    · intro a ha b hb x hxa hxb
      rcases List.mem_map.mp ha with ⟨s, hs, rfl⟩
      have hxu := (hm x).mp ⟨b, hb, hxb⟩
      have hnot := ((mem_availableTracts _ _ x).mp hxu).2
      exact hnot ((List.mem_singleton.mp hxa) ▸ hs)


/-- C2: every supertract the generator emits for a (metro, year) either
meets the configured half-pair threshold in both the target year and the
prior year, or was emitted by the merge loop at a point where no
unprocessed tract remained in the metro (its snapshot of the available
set in the instrumented loop is empty). -/
theorem supertract_thresholds_or_exhausted (sales : List Sale) (geo : List GeoRow)
    (thr : Nat) (dist : String → String → ℚ) (year : Int) (cbsaId : String) :
    ∀ c ∈ generateSupertractsForYear sales geo thr dist year cbsaId,
      (thr ≤ halfPairsMulti (cbsaSalesOf sales cbsaId) year c ∧
       thr ≤ halfPairsMulti (cbsaSalesOf sales cbsaId) (year - 1) c) ∨
      (c, ([] : List String)) ∈ secondPassTrace (cbsaSalesOf sales cbsaId) year thr
        dist (cbsaTractsOf geo cbsaId) (firstPassSingles sales geo thr year cbsaId)
        (availableTracts (cbsaTractsOf geo cbsaId)
          (firstPassSingles sales geo thr year cbsaId)) := by
  intro c hc
  rw [generateSupertractsForYear] at hc
  rcases List.mem_append.mp hc with h1 | h2
  · left
    rcases List.mem_map.mp h1 with ⟨s, hs, rfl⟩
    have hthr := of_decide_eq_true (List.mem_filter.mp hs).2
    rw [halfPairsMulti_singleton, halfPairsMulti_singleton]
    exact hthr
  · rw [← secondPassTrace_map_fst] at h2
    rcases List.mem_map.mp h2 with ⟨p, hp, hpc⟩
    rcases secondPassTrace_spec (cbsaSalesOf sales cbsaId) year thr dist
        (cbsaTractsOf geo cbsaId) (firstPassSingles sales geo thr year cbsaId)
        (availableTracts (cbsaTractsOf geo cbsaId)
          (firstPassSingles sales geo thr year cbsaId)) rfl p hp with hthr | hemp
    · left
      rw [← hpc]
      exact hthr
    · right
      have : p = (c, ([] : List String)) := by
        rcases p with ⟨p1, p2⟩
        simp only at hpc hemp
        rw [hpc, hemp]
      rw [← this]
      exact hp

/-- In the demonstration metro every emitted cluster is a singleton that
meets the threshold; tract A is one of them. -/
theorem supertract_thresholds_or_exhausted_witness :
    (2 ≤ halfPairsMulti (cbsaSalesOf demoSales "M") 2001 ["A"] ∧
     2 ≤ halfPairsMulti (cbsaSalesOf demoSales "M") (2001 - 1) ["A"]) ∨
    ((["A"], ([] : List String)) ∈ secondPassTrace (cbsaSalesOf demoSales "M")
      2001 2 demoDist (cbsaTractsOf demoGeo "M")
      (firstPassSingles demoSales demoGeo 2 2001 "M")
      (availableTracts (cbsaTractsOf demoGeo "M")
        (firstPassSingles demoSales demoGeo 2 2001 "M"))) :=
  supertract_thresholds_or_exhausted demoSales demoGeo 2 demoDist 2001 "M" ["A"]
    (List.mem_append_left _ (by decide))

/-- C3: for every (metro, year), the union of the component-tract sets
of the emitted supertracts is exactly the set of tracts recorded for the
metro in the geographic table, and no tract lies in two distinct emitted
clusters. -/
theorem supertracts_partition_metro (sales : List Sale) (geo : List GeoRow)
    (thr : Nat) (dist : String → String → ℚ) (year : Int) (cbsaId : String) :
    (∀ x, (∃ c ∈ generateSupertractsForYear sales geo thr dist year cbsaId,
        x ∈ c) ↔ ∃ g ∈ geo, g.cbsa = cbsaId ∧ g.tract = x) ∧
    List.Pairwise (fun a b => ∀ x ∈ a, x ∉ b)
      (generateSupertractsForYear sales geo thr dist year cbsaId) := by
  obtain ⟨hm, hp⟩ := generate_partition sales geo thr dist year cbsaId
  refine ⟨?_, hp⟩
  intro x
  rw [hm x, mem_uniqueKeep]
  simp only [cbsaTractsOf, List.mem_map, List.mem_filter, decide_eq_true_eq]
  constructor
  · rintro ⟨g, ⟨hg, hc⟩, ht⟩
    exact ⟨g, hg, hc, ht⟩
  · rintro ⟨g, hg, hc, ht⟩
    exact ⟨g, ⟨hg, hc⟩, ht⟩

end RSAI
